import Mathlib

/-!
Shallow embedding of the multi-agent orchestration core of this repository
(src/agents/multi_agent/orchestrator.py, tool_chat.py, coder.py, researcher.py,
test_generator.py, src/agents/tool_interface.py, src/agents/shell_interface.py)
together with theorems settling the frozen claims about it.

Modelling conventions:
- Python values that flow through json.loads are modelled by the inductive
  PyVal; Python exceptions by PyExc; a Python function that can raise is
  embedded as a Lean function returning Except PyExc.
- json.loads is embedded as a recursive-descent parser over the JSON fragment
  the program exchanges (null / booleans / integers / strings with the common
  escapes / arrays / objects); floats and unicode escapes are outside the
  fragment and parse as errors.
- Filesystem paths are lists of components with an absolute flag; Path.resolve
  is lexical normalization of "." and ".." (symlinks are not modelled);
  the filesystem is a map from resolved absolute component lists to file
  contents. Directories and mkdir are not modelled; in the source every mkdir
  happens after the containment check that the claims are about.
- Remote model responses, shell-command effects, MCP lookups and the dynamic
  module load are external collaborators (spec section 6); each is passed in
  as an explicit oracle parameter, so every theorem quantifies over all of
  their behaviours.
- Logging (evaluation/logging.py) only appends to an event log and never
  affects control flow; log_event calls are omitted from the embedding.
-/

/-- Python exception classes that the embedded code can raise. -/
inductive PyExc where
  | typeError (msg : String)
  | attributeError (msg : String)
  | jsonDecodeError (msg : String)
  | valueError (msg : String)
  | osError (msg : String)
deriving Repr, DecidableEq

/-- The message of an exception, as Python str(exc) interpolates it. -/
def PyExc.text : PyExc → String
  | .typeError m => m
  | .attributeError m => m
  | .jsonDecodeError m => m
  | .valueError m => m
  | .osError m => m

/-! Character-level embeddings of the Python string operations the code uses
(implemented over List Char so that concrete witnesses evaluate in the kernel). -/

/-- Whether one character list occurs inside another. -/
def subOccurs (pat : List Char) : List Char → Bool
  | [] => pat.isPrefixOf []
  | c :: cs => pat.isPrefixOf (c :: cs) || subOccurs pat cs

/-- Substring test (Python in-operator on strings). -/
def strContains (s pat : String) : Bool :=
  subOccurs pat.data s.data

/-- Python str.startswith. -/
def strStarts (s pat : String) : Bool :=
  pat.data.isPrefixOf s.data

/-- Python whitespace test for strip(). -/
def isWsChar (c : Char) : Bool :=
  c = ' ' || c = '\t' || c = '\n' || c = '\r'

/-- Python str.strip(): drop leading and trailing whitespace. -/
def strStrip (s : String) : String :=
  String.mk (((s.data.dropWhile isWsChar).reverse.dropWhile isWsChar).reverse)

/-- Python slicing s[:n] (by characters). -/
def strTake (s : String) (n : Nat) : String :=
  String.mk (s.data.take n)

/-- Split a character list at a separator character. -/
def splitOnChar (sep : Char) : List Char → List (List Char)
  | [] => [[]]
  | c :: cs =>
      let rest := splitOnChar sep cs
      if c = sep then [] :: rest
      else match rest with
        | [] => [[c]]
        | g :: gs => (c :: g) :: gs

/-- Python values produced by json.loads (the JSON fragment the program uses). -/
inductive PyVal where
  | vnone
  | vbool (b : Bool)
  | vint (n : Int)
  | vstr (s : String)
  | vlist (xs : List PyVal)
  | vdict (xs : List (String × PyVal))

/-- Python truthiness of a value. -/
def PyVal.truthy : PyVal → Bool
  | .vnone => false
  | .vbool b => b
  | .vint n => n != 0
  | .vstr s => !(s == "")
  | .vlist xs => !xs.isEmpty
  | .vdict xs => !xs.isEmpty

/-- Whether a value is a dict (Python isinstance(args, dict)). -/
def PyVal.isDict : PyVal → Bool
  | .vdict _ => true
  | _ => false

/-- dict.get with a default; attribute access on any other value raises
AttributeError exactly as in CPython. -/
def PyVal.get (v : PyVal) (key : String) (default : PyVal) : Except PyExc PyVal :=
  match v with
  | .vdict xs => .ok ((xs.lookup key).getD default)
  | .vnone => .error (.attributeError "\x27NoneType\x27 object has no attribute \x27get\x27")
  | .vbool _ => .error (.attributeError "\x27bool\x27 object has no attribute \x27get\x27")
  | .vint _ => .error (.attributeError "\x27int\x27 object has no attribute \x27get\x27")
  | .vstr _ => .error (.attributeError "\x27str\x27 object has no attribute \x27get\x27")
  | .vlist _ => .error (.attributeError "\x27list\x27 object has no attribute \x27get\x27")

/-- str.strip() on a value obtained from a parsed argument object: trims a
string, raises AttributeError on every other type. -/
def PyVal.stripStr : PyVal → Except PyExc String
  | .vstr s => .ok (strStrip s)
  | .vnone => .error (.attributeError "\x27NoneType\x27 object has no attribute \x27strip\x27")
  | .vbool _ => .error (.attributeError "\x27bool\x27 object has no attribute \x27strip\x27")
  | .vint _ => .error (.attributeError "\x27int\x27 object has no attribute \x27strip\x27")
  | .vlist _ => .error (.attributeError "\x27list\x27 object has no attribute \x27strip\x27")
  | .vdict _ => .error (.attributeError "\x27dict\x27 object has no attribute \x27strip\x27")

/-! JSON parsing (the embedding of json.loads). -/

/-- Skip JSON whitespace. -/
def jsSkipWs : List Char → List Char
  | c :: cs => if c = ' ' || c = '\t' || c = '\n' || c = '\r' then jsSkipWs cs else c :: cs
  | [] => []

/-- Parse the body of a JSON string after the opening quote; supports the
escapes the program actually exchanges. -/
def jsString : List Char → Option (String × List Char)
  | [] => Option.none
  | '"' :: cs => some ("", cs)
  | '\\' :: c :: cs =>
      match (match c with
             | '"' => some "\x22"
             | '\\' => some "\\"
             | '/' => some "/"
             | 'n' => some "\n"
             | 't' => some "\t"
             | 'r' => some "\r"
             | _ => Option.none : Option String) with
      | Option.none => Option.none
      | some esc =>
          match jsString cs with
          | Option.none => Option.none
          | some (rest, cs2) => some (esc ++ rest, cs2)
  | c :: cs =>
      match jsString cs with
      | Option.none => Option.none
      | some (rest, cs2) => some (String.singleton c ++ rest, cs2)

/-- Collect a run of decimal digits. -/
def jsDigits : List Char → (List Char × List Char)
  | [] => ([], [])
  | c :: cs =>
      if c.isDigit then
        let (ds, rest) := jsDigits cs
        (c :: ds, rest)
      else ([], c :: cs)

/-- Decimal digits to a natural number. -/
def digitsToNat (ds : List Char) : Nat :=
  ds.foldl (fun acc c => acc * 10 + (c.toNat - '0'.toNat)) 0

/-- Parse an integer literal starting at a digit or minus sign. -/
def jsInt (cs : List Char) : Option (Int × List Char) :=
  match cs with
  | '-' :: rest =>
      let (ds, rest2) := jsDigits rest
      if ds.isEmpty then Option.none
      else some (-(digitsToNat ds : Int), rest2)
  | _ =>
      let (ds, rest2) := jsDigits cs
      if ds.isEmpty then Option.none
      else some ((digitsToNat ds : Int), rest2)

/-- Insert a key into an object, later duplicates overwriting earlier ones as
Python dict construction does. -/
def jsInsert (xs : List (String × PyVal)) (k : String) (v : PyVal) : List (String × PyVal) :=
  match xs with
  | [] => [(k, v)]
  | (k0, v0) :: rest => if k0 = k then (k, v) :: rest else (k0, v0) :: jsInsert rest k v

mutual

/-- Parse one JSON value (fuel-indexed recursive descent). -/
def jsValue : Nat → List Char → Option (PyVal × List Char)
  | 0, _ => Option.none
  | fuel + 1, cs =>
      match jsSkipWs cs with
      | [] => Option.none
      | '"' :: cs2 =>
          match jsString cs2 with
          | Option.none => Option.none
          | some (s, cs3) => some (.vstr s, cs3)
      | '{' :: cs2 => jsObject fuel (jsSkipWs cs2) []
      | '[' :: cs2 => jsArray fuel (jsSkipWs cs2)
      | 't' :: 'r' :: 'u' :: 'e' :: cs2 => some (.vbool true, cs2)
      | 'f' :: 'a' :: 'l' :: 's' :: 'e' :: cs2 => some (.vbool false, cs2)
      | 'n' :: 'u' :: 'l' :: 'l' :: cs2 => some (.vnone, cs2)
      | cs2 =>
          match jsInt cs2 with
          | Option.none => Option.none
          | some (n, cs3) => some (.vint n, cs3)

/-- Parse the members of an object after the opening brace (whitespace skipped). -/
def jsObject : Nat → List Char → List (String × PyVal) → Option (PyVal × List Char)
  | 0, _, _ => Option.none
  | _ + 1, '}' :: cs, acc => some (.vdict acc, cs)
  | fuel + 1, '"' :: cs, acc =>
      match jsString cs with
      | Option.none => Option.none
      | some (k, cs2) =>
          match jsSkipWs cs2 with
          | ':' :: cs3 =>
              match jsValue fuel cs3 with
              | Option.none => Option.none
              | some (v, cs4) =>
                  match jsSkipWs cs4 with
                  | ',' :: cs5 => jsObject fuel (jsSkipWs cs5) (jsInsert acc k v)
                  | '}' :: cs5 => some (.vdict (jsInsert acc k v), cs5)
                  | _ => Option.none
          | _ => Option.none
  | _ + 1, _, _ => Option.none

/-- Parse the elements of an array after the opening bracket (whitespace skipped). -/
def jsArray : Nat → List Char → Option (PyVal × List Char)
  | 0, _ => Option.none
  | fuel + 1, cs =>
      match cs with
      | ']' :: cs2 => some (.vlist [], cs2)
      | _ =>
          match jsValue fuel cs with
          | Option.none => Option.none
          | some (v, cs2) => jsArrayRest fuel (jsSkipWs cs2) [v]

/-- Parse the remaining elements of an array. -/
def jsArrayRest : Nat → List Char → List PyVal → Option (PyVal × List Char)
  | 0, _, _ => Option.none
  | fuel + 1, ',' :: cs, acc =>
      match jsValue fuel (jsSkipWs cs) with
      | Option.none => Option.none
      | some (v, cs2) => jsArrayRest fuel (jsSkipWs cs2) (acc ++ [v])
  | _ + 1, ']' :: cs, acc => some (.vlist acc, cs)
  | _ + 1, _, _ => Option.none

end

/-- The embedding of json.loads on a string: parse one value and require only
whitespace after it, raising json.JSONDecodeError otherwise. -/
def jsonLoads (s : String) : Except PyExc PyVal :=
  match jsValue (s.length + 1) s.data with
  | Option.none => .error (.jsonDecodeError "Expecting value")
  | some (v, rest) =>
      if (jsSkipWs rest).isEmpty then .ok v
      else .error (.jsonDecodeError "Extra data")

/-- json.loads applied directly to a tool call argument field that may be
None: CPython raises TypeError on None. -/
def jsonLoadsOpt (arg : Option String) : Except PyExc PyVal :=
  match arg with
  | Option.none => .error (.typeError "the JSON object must be str, bytes or bytearray, not NoneType")
  | some s => jsonLoads s

example : jsonLoads "not-json" = .error (.jsonDecodeError "Expecting value") := by rfl
example : jsonLoads "[1, 2]" = .ok (.vlist [.vint 1, .vint 2]) := by rfl
example : jsonLoads "\x7b\x22cmd\x22: \x22ls\x22\x7d" = .ok (.vdict [("cmd", .vstr "ls")]) := by rfl
example : jsonLoads "\x7b\x7d" = .ok (.vdict []) := by rfl

/-! Paths and filesystem. -/

/-- A pathlib.Path value: an absolute flag plus components. -/
structure PyPath where
  absolute : Bool
  comps : List String
deriving Repr, DecidableEq

/-- Path(s) from a string: absolute iff it starts with a slash; empty
components collapse as pathlib does. -/
def parsePath (s : String) : PyPath :=
  { absolute := strStarts s "/",
    comps := ((splitOnChar '/' s.data).map String.mk).filter (fun c => !(c == "")) }

/-- The / operator on paths: an absolute right operand replaces the base. -/
def PyPath.join (base p : PyPath) : PyPath :=
  if p.absolute then p else { absolute := base.absolute, comps := base.comps ++ p.comps }

/-- Lexical normalization of "." and ".." against a reversed accumulator. -/
def normComps : List String → List String → List String
  | acc, [] => acc.reverse
  | acc, c :: cs =>
      if c = "." then normComps acc cs
      else if c = ".." then normComps acc.tail cs
      else normComps (c :: acc) cs

/-- Path.resolve(): an absolute, lexically normalized path (symlinks are not
modelled; every caller in the source resolves only already-absolute paths). -/
def PyPath.resolve (p : PyPath) : PyPath :=
  { absolute := true, comps := normComps [] p.comps }

/-- Path.parent. -/
def PyPath.parent (p : PyPath) : PyPath :=
  { absolute := p.absolute, comps := p.comps.dropLast }

/-- Path.relative_to(wd): the remaining components when wd is a prefix,
ValueError otherwise. -/
def PyPath.relativeTo (p wd : PyPath) : Except PyExc (List String) :=
  if p.absolute && wd.absolute && wd.comps.isPrefixOf p.comps then
    .ok (p.comps.drop wd.comps.length)
  else .error (.valueError "path is not in the subpath of the working directory")

/-- Render components as a posix path string relative to a base ("." when empty,
matching Path.as_posix on the result of relative_to). -/
def joinComps (cs : List String) : String :=
  if cs.isEmpty then "." else String.intercalate "/" cs

/-- as_posix() of an absolute path. -/
def absPosix (p : PyPath) : String :=
  "/" ++ String.intercalate "/" p.comps

/-- rel_path from src/agents/multi_agent/utils.py: resolve both paths, render
relative to the workdir when possible, absolute otherwise. -/
def relPathStr (workdir target : PyPath) : String :=
  match target.resolve.relativeTo workdir.resolve with
  | .ok cs => joinComps cs
  | .error _ => absPosix target.resolve

/-- The filesystem: file contents keyed by resolved absolute components. -/
def FS : Type := List String → Option String

/-- Writing one file. -/
def FS.write (fs : FS) (key : List String) (content : String) : FS :=
  fun k => if k = key then some content else fs k

/-- Oracle for faults of Path.write_text (some msg means the write raises). -/
def WriteFault : Type := List String → Option String

example : (parsePath "results/solver.py").comps = ["results", "solver.py"] := by rfl
example : ((parsePath "/w").join (parsePath "../x")).resolve = { absolute := true, comps := ["x"] } := by rfl

/-! Tool calls and chat messages (the data model of section 3 of the spec). -/

/-- A model-issued tool call: id, function name, raw argument text (which the
OpenAI client types as str or None). -/
structure ToolCall where
  id : String
  name : String
  arguments : Option String
deriving Repr, DecidableEq

/-- Chat roles used by the program. -/
inductive Role where
  | developer
  | user
  | assistant
  | tool
deriving Repr, DecidableEq

/-- A transcript message; absent dict keys of the Python message are the
defaults here. -/
structure Message where
  role : Role
  content : Option String := Option.none
  toolCalls : List ToolCall := []
  toolCallId : Option String := Option.none
deriving Repr, DecidableEq

/-- The tool-role reply message appended for one tool call. -/
def toolMsg (id content : String) : Message :=
  { role := .tool, content := some content, toolCallId := some id }

/-- One assistant response from the model endpoint (the oracle for
client.chat.completions.create). -/
structure AssistantMsg where
  content : Option String
  toolCalls : List ToolCall
deriving Repr, DecidableEq

/-- dict.get on an argument object that is already known to be a dict
(used only after the isinstance(args, dict) guard in the source). -/
def PyVal.dGet (v : PyVal) (key : String) : PyVal :=
  match v with
  | .vdict xs => (xs.lookup key).getD .vnone
  | _ => .vnone

/-! WriteFileTool (src/agents/tool_interface.py, lines 107-193). -/

/-- The resolved write target of a path argument string, as computed at
tool_interface.py lines 180-184. -/
def writeFileTarget (wd : PyPath) (pstr : String) : PyPath :=
  (if (parsePath pstr).absolute then parsePath pstr else wd.join (parsePath pstr)).resolve

/-- The try-block of WriteFileTool.execute (lines 183-192): resolve the
target, require it inside the working directory, write, and convert every
fault raised inside the block to an error string. -/
def writeFileAttempt (wd : PyPath) (wf : WriteFault) (fs : FS) (pstr : String)
    (contentArg : PyVal) : String × FS :=
  match (writeFileTarget wd pstr).relativeTo wd with
  | .error e =>
      let em := PyExc.text e
      (s!"Error writing file: {em}", fs)
  | .ok rel =>
      match contentArg with
      | .vstr cstr =>
          match wf (writeFileTarget wd pstr).comps with
          | some m => (s!"Error writing file: {m}", fs)
          | Option.none =>
              let n := cstr.length
              let relStr := joinComps rel
              (s!"Wrote {n} bytes to {relStr}", fs.write (writeFileTarget wd pstr).comps cstr)
      | _ => (s!"Error writing file: data must be str", fs)

/-- WriteFileTool.execute: parse the raw argument text, validate the fields,
then run the guarded write. A TypeError from json.loads(None) or from
Path(non-string) is raised outside any try-block and propagates. -/
def WriteFileTool.execute (wd : PyPath) (wf : WriteFault) (fs : FS) (tc : ToolCall) :
    Except PyExc String × FS :=
  match jsonLoadsOpt tc.arguments with
  | .error (.jsonDecodeError m) =>
      (.ok s!"Error: Invalid JSON in write_file arguments ({m})", fs)
  | .error e => (.error e, fs)
  | .ok args =>
      if !args.isDict then (.ok "Error: write_file arguments must be a JSON object", fs)
      else
        if !(args.dGet "path").truthy then (.ok "Error: Must include path in call to write_file", fs)
        else if !(args.dGet "content").truthy then (.ok "Error: Must include content in call to write_file", fs)
        else if !(args.dGet "action").truthy then (.ok "Error: Must include action in call to write_file", fs)
        else
          match args.dGet "path" with
          | .vstr pstr =>
              (.ok (writeFileAttempt wd wf fs pstr (args.dGet "content")).1,
               (writeFileAttempt wd wf fs pstr (args.dGet "content")).2)
          | _ => (.error (.typeError "argument should be a str or an os.PathLike object where __fspath__ returns a str"), fs)

/-! RunShellTool (src/agents/tool_interface.py, lines 34-105) and
ShellInterface (src/agents/shell_interface.py). The effect of an actual shell
command is an external collaborator, passed as an oracle returning the
combined output, the exit code and the resulting filesystem. -/

/-- Oracle for subprocess execution inside ShellInterface.run_command. -/
def ShellEffect : Type := String → FS → (String × Int) × FS

/-- ShellInterface.run_command: empty commands short-circuit; otherwise the
subprocess runs (timeouts and spawn failures are part of the oracle output,
as run_command converts them to output text and exit code -1). -/
def ShellInterface.runCommand (sh : ShellEffect) (fs : FS) (cmd : String) : (String × Int) × FS :=
  if strStrip cmd == "" then (("Empty command", -1), fs)
  else sh cmd fs

/-- RunShellTool.execute. -/
def RunShellTool.execute (sh : ShellEffect) (fs : FS) (tc : ToolCall) :
    Except PyExc String × FS :=
  match jsonLoadsOpt tc.arguments with
  | .error (.jsonDecodeError m) =>
      (.ok s!"Error: Invalid JSON in run_shell arguments ({m})", fs)
  | .error e => (.error e, fs)
  | .ok args =>
      if !args.isDict then (.ok "Error: run_shell arguments must be a JSON object", fs)
      else
        if !(args.dGet "cmd").truthy then (.ok "Error: Must include cmd in call to run_shell", fs)
        else if !(args.dGet "action").truthy then (.ok "Error: Must include action in call to run_shell", fs)
        else
          match args.dGet "cmd" with
          | .vstr c =>
              let out := (ShellInterface.runCommand sh fs c).1.1
              let code := (ShellInterface.runCommand sh fs c).1.2
              (.ok s!"{out} (exit_code={code})", (ShellInterface.runCommand sh fs c).2)
          | _ =>
              (.error (.attributeError "object has no attribute \x27strip\x27"), fs)

/-- ShellInterface._handle_write_file (shell_interface.py lines 80-99): the
built-in write_file custom command. Here only resolve and relative_to sit in
the try-block; a write fault after the containment check propagates. -/
def ShellInterface.handleWriteFile (wd : PyPath) (wf : WriteFault) (fs : FS)
    (arg : String) (content : Option String) : Except PyExc (String × Int) × FS :=
  if arg == "" then (.ok ("Usage: write_file <path>", 1), fs)
  else
    match content with
    | Option.none => (.ok ("write_file requires a \x27content\x27 field in the JSON payload", 1), fs)
    | some c =>
        match (writeFileTarget wd arg).relativeTo wd with
        | .error _ => (.ok ("write_file target must be within the working directory", 1), fs)
        | .ok rel =>
            match wf (writeFileTarget wd arg).comps with
            | some m => (.error (.osError m), fs)
            | Option.none =>
                let n := c.length
                let relStr := joinComps rel
                (.ok (s!"Wrote {n} bytes to {relStr}", 0), fs.write (writeFileTarget wd arg).comps c)

/-! Claim C10: write containment. -/

/-- A successful relative_to means the working directory components are a
prefix of the target components. -/
theorem relativeTo_ok_isPrefixOf {p wd : PyPath} {rel : List String}
    (h : p.relativeTo wd = .ok rel) : wd.comps.isPrefixOf p.comps = true := by
  unfold PyPath.relativeTo at h
  split at h
  · rename_i hc
    simp only [Bool.and_eq_true] at hc
    exact hc.2
  · cases h

/-- Writing one file changes the filesystem at most at the written key. -/
theorem fsWrite_frame {fs : FS} {key : List String} {c : String} {k : List String}
    (h : FS.write fs key c k ≠ fs k) : k = key := by
  unfold FS.write at h
  by_cases hk : k = key
  · exact hk
  · simp [hk] at h

/-- The guarded write block changes the filesystem only at keys under the
working directory. -/
theorem writeFileAttempt_frame (wd : PyPath) (wf : WriteFault) (fs : FS) (pstr : String)
    (carg : PyVal) (k : List String)
    (h : (writeFileAttempt wd wf fs pstr carg).2 k ≠ fs k) :
    wd.comps.isPrefixOf k = true := by
  unfold writeFileAttempt at h
  cases hrel : (writeFileTarget wd pstr).relativeTo wd with
  | error e => rw [hrel] at h; simp at h
  | ok rel =>
      rw [hrel] at h
      cases carg with
      | vstr cstr =>
          cases hwf : wf (writeFileTarget wd pstr).comps with
          | some m => rw [hwf] at h; simp at h
          | none =>
              rw [hwf] at h
              simp only at h
              have hk := fsWrite_frame h
              subst hk
              exact relativeTo_ok_isPrefixOf hrel
      | vnone => simp at h
      | vbool b => simp at h
      | vint n => simp at h
      | vlist xs => simp at h
      | vdict xs => simp at h

/-- WriteFileTool.execute changes the filesystem only under the working
directory. -/
theorem writeFileExecute_frame (wd : PyPath) (wf : WriteFault) (fs : FS) (tc : ToolCall)
    (k : List String)
    (h : (WriteFileTool.execute wd wf fs tc).2 k ≠ fs k) :
    wd.comps.isPrefixOf k = true := by
  unfold WriteFileTool.execute at h
  split at h
  · simp at h
  · simp at h
  · split at h
    · simp at h
    · split at h
      · simp at h
      · split at h
        · simp at h
        · split at h
          · simp at h
          · split at h
            · rename_i args pstr hp
              exact writeFileAttempt_frame wd wf fs pstr _ k (by simpa using h)
            · simp at h

/-- ShellInterface._handle_write_file changes the filesystem only under the
working directory. -/
theorem handleWriteFile_frame (wd : PyPath) (wf : WriteFault) (fs : FS)
    (arg : String) (content : Option String) (k : List String)
    (h : (ShellInterface.handleWriteFile wd wf fs arg content).2 k ≠ fs k) :
    wd.comps.isPrefixOf k = true := by
  unfold ShellInterface.handleWriteFile at h
  split at h
  · simp at h
  · split at h
    · simp at h
    · rename_i c
      cases hrel : (writeFileTarget wd arg).relativeTo wd with
      | error e => rw [hrel] at h; simp at h
      | ok rel =>
          rw [hrel] at h
          cases hwf : wf (writeFileTarget wd arg).comps with
          | some m => rw [hwf] at h; simp at h
          | none =>
              rw [hwf] at h
              simp only at h
              have hk := fsWrite_frame h
              subst hk
              exact relativeTo_ok_isPrefixOf hrel

/-- An out-of-workdir resolved target makes the guarded write block return an
error string and leave the filesystem untouched. -/
theorem writeFileAttempt_outside (wd : PyPath) (wf : WriteFault) (fs : FS) (pstr : String)
    (carg : PyVal)
    (h : wd.comps.isPrefixOf (writeFileTarget wd pstr).comps = false) :
    (writeFileAttempt wd wf fs pstr carg).1 =
      "Error writing file: path is not in the subpath of the working directory" ∧
    (writeFileAttempt wd wf fs pstr carg).2 = fs := by
  have hrel : (writeFileTarget wd pstr).relativeTo wd =
      .error (.valueError "path is not in the subpath of the working directory") := by
    unfold PyPath.relativeTo
    simp [h]
  unfold writeFileAttempt
  rw [hrel]
  exact ⟨rfl, rfl⟩

/-- An out-of-workdir resolved target makes the shell write_file command fail
with the containment diagnostic and leave the filesystem untouched. -/
theorem handleWriteFile_outside (wd : PyPath) (wf : WriteFault) (fs : FS)
    (arg : String) (c : String)
    (harg : (arg == "") = false)
    (h : wd.comps.isPrefixOf (writeFileTarget wd arg).comps = false) :
    ShellInterface.handleWriteFile wd wf fs arg (some c) =
      (.ok ("write_file target must be within the working directory", 1), fs) := by
  have hrel : (writeFileTarget wd arg).relativeTo wd =
      .error (.valueError "path is not in the subpath of the working directory") := by
    unfold PyPath.relativeTo
    simp [h]
  unfold ShellInterface.handleWriteFile
  rw [harg]
  simp only [Bool.false_eq_true, if_false]
  rw [hrel]

/-- C10: every filesystem change performed by WriteFileTool.execute or by
ShellInterface write_file lands under the configured working directory; a
resolved target outside the working directory produces an error string and no
filesystem modification (in the source, mkdir and the write both sit after the
relative_to containment check, so nothing is created either). -/
theorem c10_write_containment (wd : PyPath) (wf : WriteFault) (fs : FS) (tc : ToolCall)
    (pstr arg c : String) (carg : PyVal) (content : Option String) :
    (∀ k, (WriteFileTool.execute wd wf fs tc).2 k ≠ fs k →
        wd.comps.isPrefixOf k = true) ∧
    (∀ k, (ShellInterface.handleWriteFile wd wf fs arg content).2 k ≠ fs k →
        wd.comps.isPrefixOf k = true) ∧
    (wd.comps.isPrefixOf (writeFileTarget wd pstr).comps = false →
        (writeFileAttempt wd wf fs pstr carg).1 =
          "Error writing file: path is not in the subpath of the working directory" ∧
        (writeFileAttempt wd wf fs pstr carg).2 = fs) ∧
    ((arg == "") = false →
      wd.comps.isPrefixOf (writeFileTarget wd arg).comps = false →
        ShellInterface.handleWriteFile wd wf fs arg (some c) =
          (.ok ("write_file target must be within the working directory", 1), fs)) := by
  refine ⟨fun k h => writeFileExecute_frame wd wf fs tc k h,
          fun k h => handleWriteFile_frame wd wf fs arg content k h,
          fun h => writeFileAttempt_outside wd wf fs pstr carg h,
          fun harg h => handleWriteFile_outside wd wf fs arg c harg h⟩

/-- C10 witness: a write inside the working directory actually changes the
file, and the theorem places it under the workdir; a traversal outside the
working directory is rejected with the containment diagnostic. -/
theorem c10_witness :
    (List.isPrefixOf ["w"] ["w", "a.py"] = true ∧
      ShellInterface.handleWriteFile ⟨true, ["w"]⟩ (fun _ => Option.none)
          (fun _ => Option.none) "../../etc/passwd" (some "X") =
        (.ok ("write_file target must be within the working directory", 1),
          (fun _ => Option.none : FS))) := by
  refine ⟨?_, ?_⟩
  · exact (c10_write_containment ⟨true, ["w"]⟩ (fun _ => Option.none) (fun _ => Option.none)
      ⟨"1", "write_file",
        some "\x7b\x22path\x22: \x22a.py\x22, \x22content\x22: \x22hi\x22, \x22action\x22: \x22w\x22\x7d"⟩
      "x" "../../etc/passwd" "X" PyVal.vnone Option.none).1 ["w", "a.py"] (by decide)
  · exact (c10_write_containment ⟨true, ["w"]⟩ (fun _ => Option.none) (fun _ => Option.none)
      ⟨"1", "write_file",
        some "\x7b\x22path\x22: \x22a.py\x22, \x22content\x22: \x22hi\x22, \x22action\x22: \x22w\x22\x7d"⟩
      "x" "../../etc/passwd" "X" PyVal.vnone Option.none).2.2.2 (by decide) (by decide)

/-! ToolChatAgent (src/agents/multi_agent/tool_chat.py): the reusable bounded
tool loop every sub-agent instantiates. -/

/-- A registered tool handler over the loop-external state sigma: the string
result or the exception it raises, with the state as mutated so far (the
step_num argument of the source handlers is used only for logging). -/
def Handler (σ : Type) : Type := ToolCall → σ → Except PyExc String × σ

/-- The outcome of one ToolChatAgent.run: the returned text or the raised
exception, the transcript as mutated in place, the external state, and the
number of chat-completion requests issued. -/
structure TCOutcome (σ : Type) where
  result : Except PyExc String
  messages : List Message
  state : σ
  requests : Nat

/-- tool_chat.py lines 60-69: dispatch the tool calls of one assistant turn in
the order received, appending one tool-role message per call. There is no
try/except at this boundary: a fault raised by a handler aborts the dispatch,
leaving only the messages appended so far. -/
def dispatchCalls {σ : Type} (handlers : String → Option (Handler σ)) :
    List ToolCall → List Message → σ → Except PyExc Unit × List Message × σ
  | [], msgs, s => (.ok (), msgs, s)
  | tc :: rest, msgs, s =>
      match handlers tc.name with
      | Option.none =>
          dispatchCalls handlers rest (msgs ++ [toolMsg tc.id ("Unknown tool: " ++ tc.name)]) s
      | some h =>
          match h tc s with
          | (.ok r, s2) => dispatchCalls handlers rest (msgs ++ [toolMsg tc.id r]) s2
          | (.error e, s2) => (.error e, msgs, s2)

/-- The step loop of ToolChatAgent.run (tool_chat.py lines 36-73), with the
model endpoint as a response oracle indexed by the number of requests made. -/
def ToolChatAgent.runAux {σ : Type} (handlers : String → Option (Handler σ))
    (resp : Nat → AssistantMsg) :
    Nat → Nat → List Message → σ → TCOutcome σ
  | 0, reqs, msgs, s => { result := .ok "", messages := msgs, state := s, requests := reqs }
  | fuel + 1, reqs, msgs, s =>
      if (resp reqs).toolCalls.isEmpty then
        { result := .ok ((resp reqs).content.getD "")
          messages := msgs ++ [{ role := .assistant, content := some ((resp reqs).content.getD "") }]
          state := s
          requests := reqs + 1 }
      else
        match dispatchCalls handlers (resp reqs).toolCalls
            (msgs ++ [{ role := .assistant, toolCalls := (resp reqs).toolCalls }]) s with
        | (.ok _, msgs2, s2) => ToolChatAgent.runAux handlers resp fuel (reqs + 1) msgs2 s2
        | (.error e, msgs2, s2) =>
            { result := .error e, messages := msgs2, state := s2, requests := reqs + 1 }

/-- ToolChatAgent.run: append the system prompt to the (possibly pre-existing)
transcript and drive at most max_steps model round-trips. -/
def ToolChatAgent.run {σ : Type} (handlers : String → Option (Handler σ))
    (resp : Nat → AssistantMsg) (maxSteps : Nat) (systemPrompt : String)
    (messages : List Message) (s : σ) : TCOutcome σ :=
  ToolChatAgent.runAux handlers resp maxSteps 0
    (messages ++ [{ role := .developer, content := some systemPrompt }]) s

/-! Claim C2: the bounded loop. -/

/-- The loop never makes more requests than it has fuel. -/
theorem runAux_requests_le {σ : Type} (handlers : String → Option (Handler σ))
    (resp : Nat → AssistantMsg) :
    ∀ (fuel reqs : Nat) (msgs : List Message) (s : σ),
      (ToolChatAgent.runAux handlers resp fuel reqs msgs s).requests ≤ reqs + fuel := by
  intro fuel
  induction fuel with
  | zero => intro reqs msgs s; exact Nat.le_refl _
  | succ fuel ih =>
      intro reqs msgs s
      unfold ToolChatAgent.runAux
      split
      · show reqs + 1 ≤ reqs + (fuel + 1)
        omega
      · split
        · rename_i msgs2 s2 heq
          have := ih (reqs + 1) msgs2 s2
          omega
        · show reqs + 1 ≤ reqs + (fuel + 1)
          omega

/-- The request counter never decreases. -/
theorem runAux_requests_ge {σ : Type} (handlers : String → Option (Handler σ))
    (resp : Nat → AssistantMsg) :
    ∀ (fuel reqs : Nat) (msgs : List Message) (s : σ),
      reqs ≤ (ToolChatAgent.runAux handlers resp fuel reqs msgs s).requests := by
  intro fuel
  induction fuel with
  | zero => intro reqs msgs s; exact Nat.le_refl _
  | succ fuel ih =>
      intro reqs msgs s
      unfold ToolChatAgent.runAux
      split
      · show reqs ≤ reqs + 1
        omega
      · split
        · rename_i msgs2 s2 heq
          have := ih (reqs + 1) msgs2 s2
          omega
        · show reqs ≤ reqs + 1
          omega

/-- Every response consumed before the last one carried tool calls. -/
theorem runAux_earlier_toolcalls {σ : Type} (handlers : String → Option (Handler σ))
    (resp : Nat → AssistantMsg) :
    ∀ (fuel reqs : Nat) (msgs : List Message) (s : σ) (i : Nat), reqs ≤ i →
      i + 1 < (ToolChatAgent.runAux handlers resp fuel reqs msgs s).requests →
      (resp i).toolCalls ≠ [] := by
  intro fuel
  induction fuel with
  | zero =>
      intro reqs msgs s i hle hlt
      exact absurd (show i + 1 < reqs from hlt) (by omega)
  | succ fuel ih =>
      intro reqs msgs s i hle hlt
      unfold ToolChatAgent.runAux at hlt
      split at hlt
      · exact absurd (show i + 1 < reqs + 1 from hlt) (by omega)
      · rename_i hne
        split at hlt
        · rename_i msgs2 s2 heq
          by_cases hi : i = reqs
          · subst hi
            intro hemp
            exact hne (by simp [hemp])
          · exact ih (reqs + 1) msgs2 s2 i (by omega) hlt
        · exact absurd (show i + 1 < reqs + 1 from hlt) (by omega)

/-- The loop step equation for a no-tool-call response. -/
theorem runAux_step_plain {σ : Type} (handlers : String → Option (Handler σ))
    (resp : Nat → AssistantMsg) (fuel reqs : Nat) (msgs : List Message) (s : σ)
    (hemp : (resp reqs).toolCalls.isEmpty = true) :
    ToolChatAgent.runAux handlers resp (fuel + 1) reqs msgs s =
      { result := .ok ((resp reqs).content.getD "")
        messages := msgs ++ [{ role := .assistant, content := some ((resp reqs).content.getD "") }]
        state := s
        requests := reqs + 1 } := by
  unfold ToolChatAgent.runAux
  rw [if_pos hemp]

/-- The loop step equation for a turn whose dispatch completes. -/
theorem runAux_step_ok {σ : Type} (handlers : String → Option (Handler σ))
    (resp : Nat → AssistantMsg) (fuel reqs : Nat) (msgs : List Message) (s : σ)
    (msgs2 : List Message) (s2 : σ)
    (hemp : ¬ (resp reqs).toolCalls.isEmpty = true)
    (hd : dispatchCalls handlers (resp reqs).toolCalls
        (msgs ++ [{ role := .assistant, toolCalls := (resp reqs).toolCalls }]) s =
      (.ok (), msgs2, s2)) :
    ToolChatAgent.runAux handlers resp (fuel + 1) reqs msgs s =
      ToolChatAgent.runAux handlers resp fuel (reqs + 1) msgs2 s2 := by
  conv_lhs => unfold ToolChatAgent.runAux
  rw [if_neg hemp, hd]

/-- The loop step equation for a turn whose dispatch raises. -/
theorem runAux_step_error {σ : Type} (handlers : String → Option (Handler σ))
    (resp : Nat → AssistantMsg) (fuel reqs : Nat) (msgs : List Message) (s : σ)
    (e : PyExc) (msgs2 : List Message) (s2 : σ)
    (hemp : ¬ (resp reqs).toolCalls.isEmpty = true)
    (hd : dispatchCalls handlers (resp reqs).toolCalls
        (msgs ++ [{ role := .assistant, toolCalls := (resp reqs).toolCalls }]) s =
      (.error e, msgs2, s2)) :
    ToolChatAgent.runAux handlers resp (fuel + 1) reqs msgs s =
      { result := .error e, messages := msgs2, state := s2, requests := reqs + 1 } := by
  unfold ToolChatAgent.runAux
  rw [if_neg hemp, hd]

/-- A normal return before fuel exhaustion happened on a no-tool-call
response, returning its text content and appending it as the final assistant
message. -/
theorem runAux_early_exit {σ : Type} (handlers : String → Option (Handler σ))
    (resp : Nat → AssistantMsg) :
    ∀ (fuel reqs : Nat) (msgs : List Message) (s : σ) (t : String),
      (ToolChatAgent.runAux handlers resp fuel reqs msgs s).result = .ok t →
      (ToolChatAgent.runAux handlers resp fuel reqs msgs s).requests < reqs + fuel →
      (resp ((ToolChatAgent.runAux handlers resp fuel reqs msgs s).requests - 1)).toolCalls = [] ∧
      t = (resp ((ToolChatAgent.runAux handlers resp fuel reqs msgs s).requests - 1)).content.getD "" ∧
      (ToolChatAgent.runAux handlers resp fuel reqs msgs s).messages.getLast? =
        some { role := .assistant, content := some t } := by
  intro fuel
  induction fuel with
  | zero =>
      intro reqs msgs s t hok hlt
      exact absurd (show reqs < reqs + 0 from hlt) (by omega)
  | succ fuel ih =>
      intro reqs msgs s t hok hlt
      by_cases hemp : (resp reqs).toolCalls.isEmpty = true
      · rw [runAux_step_plain handlers resp fuel reqs msgs s hemp] at hok hlt ⊢
        simp only [Nat.add_sub_cancel]
        have ht : t = (resp reqs).content.getD "" := (Except.ok.inj hok).symm
        subst ht
        refine ⟨by simpa using hemp, rfl, ?_⟩
        simp
      · rcases hd : dispatchCalls handlers (resp reqs).toolCalls
            (msgs ++ [{ role := .assistant, toolCalls := (resp reqs).toolCalls }]) s with ⟨r, msgs2, s2⟩
        cases r with
        | ok u =>
            rw [runAux_step_ok handlers resp fuel reqs msgs s msgs2 s2 hemp hd] at hok hlt ⊢
            exact ih (reqs + 1) msgs2 s2 t hok (by omega)
        | error e =>
            rw [runAux_step_error handlers resp fuel reqs msgs s e msgs2 s2 hemp hd] at hok
            cases hok

/-- Consuming a no-tool-call response forces the normal plain-text return. -/
theorem runAux_plain_consumed {σ : Type} (handlers : String → Option (Handler σ))
    (resp : Nat → AssistantMsg) :
    ∀ (fuel reqs : Nat) (msgs : List Message) (s : σ), 1 ≤ fuel →
      (resp ((ToolChatAgent.runAux handlers resp fuel reqs msgs s).requests - 1)).toolCalls = [] →
      (ToolChatAgent.runAux handlers resp fuel reqs msgs s).result =
        .ok ((resp ((ToolChatAgent.runAux handlers resp fuel reqs msgs s).requests - 1)).content.getD "") := by
  intro fuel
  induction fuel with
  | zero => intro reqs msgs s hf; exact absurd hf (by omega)
  | succ fuel ih =>
      intro reqs msgs s hf hemp
      by_cases he : (resp reqs).toolCalls.isEmpty = true
      · rw [runAux_step_plain handlers resp fuel reqs msgs s he] at hemp ⊢
        rfl
      · rcases hd : dispatchCalls handlers (resp reqs).toolCalls
            (msgs ++ [{ role := .assistant, toolCalls := (resp reqs).toolCalls }]) s with ⟨r, msgs2, s2⟩
        cases r with
        | ok u =>
            rw [runAux_step_ok handlers resp fuel reqs msgs s msgs2 s2 he hd] at hemp ⊢
            cases fuel with
            | zero =>
                exfalso
                have hreq : (ToolChatAgent.runAux handlers resp 0 (reqs + 1) msgs2 s2).requests = reqs + 1 := rfl
                rw [hreq] at hemp
                simp only [Nat.add_sub_cancel] at hemp
                exact he (by simp [hemp])
            | succ fuel2 =>
                exact ih (reqs + 1) msgs2 s2 (by omega) hemp
        | error e =>
            rw [runAux_step_error handlers resp fuel reqs msgs s e msgs2 s2 he hd] at hemp
            simp only [Nat.add_sub_cancel] at hemp
            exact absurd (by simp [hemp] : (resp reqs).toolCalls.isEmpty = true) he

/-- With at least one unit of fuel, at least one request is issued. -/
theorem runAux_requests_succ_ge {σ : Type} (handlers : String → Option (Handler σ))
    (resp : Nat → AssistantMsg) (fuel reqs : Nat) (msgs : List Message) (s : σ) :
    reqs + 1 ≤ (ToolChatAgent.runAux handlers resp (fuel + 1) reqs msgs s).requests := by
  by_cases hemp : (resp reqs).toolCalls.isEmpty = true
  · rw [runAux_step_plain handlers resp fuel reqs msgs s hemp]
  · rcases hd : dispatchCalls handlers (resp reqs).toolCalls
        (msgs ++ [{ role := .assistant, toolCalls := (resp reqs).toolCalls }]) s with ⟨r, msgs2, s2⟩
    cases r with
    | ok u =>
        rw [runAux_step_ok handlers resp fuel reqs msgs s msgs2 s2 hemp hd]
        exact runAux_requests_ge handlers resp fuel (reqs + 1) msgs2 s2
    | error e =>
        rw [runAux_step_error handlers resp fuel reqs msgs s e msgs2 s2 hemp hd]

/-- C2: for every step budget N >= 1 and every sequence of model responses,
ToolChatAgent.run issues at most N chat-completion requests (and at least
one), terminates (the loop is structural recursion on the budget), exits
early exactly when a response carries no tool calls - appending that
assistant message and returning its text content - and this is the only
normal exit before budget exhaustion: every response consumed before the
last one carried tool calls, and consuming a no-tool-call response forces
the plain-text return. -/
theorem c2_bounded_loop {σ : Type} (handlers : String → Option (Handler σ))
    (resp : Nat → AssistantMsg) (N : Nat) (hN : 1 ≤ N) (prompt : String)
    (msgs : List Message) (s : σ) :
    1 ≤ (ToolChatAgent.run handlers resp N prompt msgs s).requests ∧
    (ToolChatAgent.run handlers resp N prompt msgs s).requests ≤ N ∧
    (∀ i, i + 1 < (ToolChatAgent.run handlers resp N prompt msgs s).requests →
        (resp i).toolCalls ≠ []) ∧
    (∀ t, (ToolChatAgent.run handlers resp N prompt msgs s).result = .ok t →
        (ToolChatAgent.run handlers resp N prompt msgs s).requests < N →
        (resp ((ToolChatAgent.run handlers resp N prompt msgs s).requests - 1)).toolCalls = [] ∧
        t = (resp ((ToolChatAgent.run handlers resp N prompt msgs s).requests - 1)).content.getD "" ∧
        (ToolChatAgent.run handlers resp N prompt msgs s).messages.getLast? =
          some { role := .assistant, content := some t }) ∧
    ((resp ((ToolChatAgent.run handlers resp N prompt msgs s).requests - 1)).toolCalls = [] →
        (ToolChatAgent.run handlers resp N prompt msgs s).result =
          .ok ((resp ((ToolChatAgent.run handlers resp N prompt msgs s).requests - 1)).content.getD "")) := by
  unfold ToolChatAgent.run
  refine ⟨?_, ?_, ?_, ?_, ?_⟩
  · cases N with
    | zero => omega
    | succ n =>
        exact runAux_requests_succ_ge handlers resp n 0
          (msgs ++ [{ role := .developer, content := some prompt }]) s
  · have h := runAux_requests_le handlers resp N 0
      (msgs ++ [{ role := .developer, content := some prompt }]) s
    omega
  · intro i hi
    exact runAux_earlier_toolcalls handlers resp N 0 _ s i (by omega) hi
  · intro t hok hlt
    exact runAux_early_exit handlers resp N 0 _ s t hok (by omega)
  · intro hemp
    exact runAux_plain_consumed handlers resp N 0 _ s hN hemp

/-- C2 witness: a plain response on the first round-trip exits with that text
after exactly one request, within a budget of three. -/
theorem c2_witness :
    (ToolChatAgent.run (σ := Unit) (fun _ => Option.none)
        (fun _ => { content := some "hi", toolCalls := [] }) 3 "p" [] ()).requests ≤ 3 ∧
    (ToolChatAgent.run (σ := Unit) (fun _ => Option.none)
        (fun _ => { content := some "hi", toolCalls := [] }) 3 "p" [] ()).result = .ok "hi" := by
  refine ⟨(c2_bounded_loop (σ := Unit) (fun _ => Option.none)
      (fun _ => { content := some "hi", toolCalls := [] }) 3 (by decide) "p" [] ()).2.1, ?_⟩
  have h := (c2_bounded_loop (σ := Unit) (fun _ => Option.none)
      (fun _ => { content := some "hi", toolCalls := [] }) 3 (by decide) "p" [] ()).2.2.2.2
  exact h rfl

/-! String containment helpers for diagnostics built by concatenation. -/

/-- A prefix of a list is a prefix of any right-extension. -/
theorem isPrefixOf_append_of_isPrefixOf (pat l r : List Char)
    (h : pat.isPrefixOf l = true) : pat.isPrefixOf (l ++ r) = true := by
  rw [List.isPrefixOf_iff_prefix] at h ⊢
  exact h.trans (List.prefix_append l r)

/-- A pattern that prefixes a list occurs in it. -/
theorem subOccurs_of_isPrefixOf (pat l : List Char) (h : pat.isPrefixOf l = true) :
    subOccurs pat l = true := by
  cases l with
  | nil => simpa [subOccurs] using h
  | cons c cs => simp [subOccurs, h]

/-- Occurrence is preserved by prepending. -/
theorem subOccurs_append_left (a pat l : List Char) (h : subOccurs pat l = true) :
    subOccurs pat (a ++ l) = true := by
  induction a with
  | nil => simpa using h
  | cons c a ih => simp [subOccurs, ih]

/-- A string occurs in any concatenation that embeds it. -/
theorem strContains_embed (x m y : String) : strContains (x ++ (m ++ y)) m = true := by
  unfold strContains
  rw [String.data_append, String.data_append]
  exact subOccurs_append_left x.data m.data (m.data ++ y.data)
    (subOccurs_of_isPrefixOf m.data (m.data ++ y.data)
      (isPrefixOf_append_of_isPrefixOf m.data m.data y.data
        (by rw [List.isPrefixOf_iff_prefix])))

/-- startswith holds for any right-extension of a string the pattern
prefixes. -/
theorem strStarts_append (pre rest pat : String) (h : strStarts pre pat = true) :
    strStarts (pre ++ rest) pat = true := by
  unfold strStarts at h ⊢
  rw [String.data_append]
  exact isPrefixOf_append_of_isPrefixOf pat.data pre.data rest.data h

/-! Claim C4: the handler fault boundary. -/

/-- The TestGenerator tool set (test_generator.py lines 57-68): write_file and
run_shell bound to the shared tool objects, with the filesystem as the
loop-external state. -/
def testGenHandlers (wd : PyPath) (wf : WriteFault) (sh : ShellEffect) :
    String → Option (Handler FS) :=
  fun name =>
    if name = "write_file" then some (fun tc fs => WriteFileTool.execute wd wf fs tc)
    else if name = "run_shell" then some (fun tc fs => RunShellTool.execute sh fs tc)
    else Option.none

/-- C4 counterexample: the claim says every exception raised inside a handler
is caught at the tool-dispatch boundary of the bounded tool loop. In the
source (tool_chat.py line 62) the dispatch has no try/except: a write_file
call whose argument text is None makes json.loads raise TypeError inside
WriteFileTool.execute (tool_interface.py line 140), and the fault propagates
out of ToolChatAgent.run instead of becoming a string tool-result. -/
theorem c4_counterexample :
    (ToolChatAgent.run
        (testGenHandlers ⟨true, ["w"]⟩ (fun _ => Option.none) (fun _ fs => (("", 0), fs)))
        (fun _ => { content := Option.none,
                    toolCalls := [⟨"call1", "write_file", Option.none⟩] })
        5 "p" [] (fun _ => Option.none)).result =
      .error (.typeError "the JSON object must be str, bytes or bytearray, not NoneType") := by
  rfl

/-- C4 (amended): the loop dispatch itself performs no catching - a fault a
handler raises propagates out of the dispatch verbatim - while faults raised
inside the handler-internal try-blocks (here: the guarded write of
WriteFileTool, lines 183-192 of tool_interface.py) are converted to
descriptive string results. -/
theorem c4_handler_fault_boundary {σ : Type} (handlers : String → Option (Handler σ))
    (tc : ToolCall) (rest : List ToolCall) (msgs : List Message) (s s2 : σ)
    (h : Handler σ) (e : PyExc)
    (wd : PyPath) (wf : WriteFault) (fs : FS) (pstr cstr m : String) (rel : List String) :
    (handlers tc.name = some h → h tc s = (.error e, s2) →
      dispatchCalls handlers (tc :: rest) msgs s = (.error e, msgs, s2)) ∧
    (wf (writeFileTarget wd pstr).comps = some m →
      (writeFileTarget wd pstr).relativeTo wd = .ok rel →
      writeFileAttempt wd wf fs pstr (.vstr cstr) = (s!"Error writing file: {m}", fs)) := by
  constructor
  · intro hh he
    unfold dispatchCalls
    rw [hh]
    simp only [he]
  · intro hwf hrel
    unfold writeFileAttempt
    rw [hrel, hwf]

/-- C4 witness: a raising write_file handler aborts the dispatch with its
TypeError, while a failing write inside the guarded block becomes an
"Error writing file" string result. -/
theorem c4_witness :
    dispatchCalls
        (testGenHandlers ⟨true, ["w"]⟩ (fun _ => some "disk full") (fun _ fs => (("", 0), fs)))
        [⟨"c1", "write_file", Option.none⟩] [] (fun _ => Option.none : FS) =
      (.error (.typeError "the JSON object must be str, bytes or bytearray, not NoneType"), [],
        (fun _ => Option.none : FS)) ∧
    writeFileAttempt ⟨true, ["w"]⟩ (fun _ => some "disk full") (fun _ => Option.none) "a.py"
        (.vstr "x") =
      ("Error writing file: disk full", (fun _ => Option.none : FS)) := by
  constructor
  · exact (c4_handler_fault_boundary
      (testGenHandlers ⟨true, ["w"]⟩ (fun _ => some "disk full") (fun _ fs => (("", 0), fs)))
      ⟨"c1", "write_file", Option.none⟩ [] [] (fun _ => Option.none) (fun _ => Option.none)
      (fun tc fs => WriteFileTool.execute ⟨true, ["w"]⟩ (fun _ => some "disk full") fs tc)
      (.typeError "the JSON object must be str, bytes or bytearray, not NoneType")
      ⟨true, ["w"]⟩ (fun _ => some "disk full") (fun _ => Option.none) "a.py" "x" "disk full"
      ["a.py"]).1 rfl rfl
  · exact (c4_handler_fault_boundary
      (testGenHandlers ⟨true, ["w"]⟩ (fun _ => some "disk full") (fun _ fs => (("", 0), fs)))
      ⟨"c1", "write_file", Option.none⟩ [] [] (fun _ => Option.none) (fun _ => Option.none)
      (fun tc fs => WriteFileTool.execute ⟨true, ["w"]⟩ (fun _ => some "disk full") fs tc)
      (.typeError "the JSON object must be str, bytes or bytearray, not NoneType")
      ⟨true, ["w"]⟩ (fun _ => some "disk full") (fun _ => Option.none) "a.py" "x" "disk full"
      ["a.py"]).2 rfl rfl

/-! The coordinator (src/agents/multi_agent/orchestrator.py, MultiAgent.run).
The write_file / run_shell / delegation branches of its dispatch chain produce
a string tool-result and mutate external state (they are embedded concretely
above at the tool level); at the coordinator level they are abstracted into a
single oracle so every coordinator theorem quantifies over all of their
behaviours. indicate_completion (lines 337-370) is embedded concretely. -/

/-- The outcome of dynamically loading the deliverable module
(importlib spec_from_file_location / exec_module, lines 344-347): it raises
an ImportError, raises any other exception (including the AssertionError of
line 346), or loads with or without a module-level callable solve. -/
inductive LoadOutcome where
  | raisesImportError (msg : String)
  | raisesOther (msg : String)
  | loaded (callableSolve : Bool)
deriving Repr, DecidableEq

/-- Oracle for the dynamic load of the file at a path in a filesystem. -/
def LoadOracle : Type := PyPath → FS → LoadOutcome

/-- The diagnostic for a missing deliverable (orchestrator.py line 342). -/
def solverMissingDiag (wd p : PyPath) : String :=
  "Solver not found at " ++ (relPathStr wd p ++
    ".\n\nThe file does not exist yet. Use call_coder to create it first.")

/-- The diagnostic for an ImportError during the load (line 349). -/
def importErrorDiag (m : String) : String :=
  "Failed to import solver due to missing dependency: " ++ (m ++
    "\n\nThe solver imports a module that cannot be found. Common issues:\n- Importing from a file that doesn\x27t exist (e.g., \x27from solver import ...\x27 in reference_impl.py)\n- Missing package installation\n- Circular import\n\nCheck that all files are self-contained and don\x27t have circular dependencies.")

/-- The diagnostic for any other load exception (line 351). -/
def otherErrorDiag (m : String) : String :=
  "Failed to import solver: " ++ (m ++
    "\n\nThere is a syntax error or runtime error in the solver code. Use call_coder to fix it.")

/-- The diagnostic for a module without a callable module-level solve
(line 355). -/
def noEntrypointDiag : String :=
  "Solver must export a module-level callable solve(problem).\n\nThe solver file exists but doesn\x27t have a callable \x27solve\x27 function at module level.\n\nIf you use a Solver class, add this line at the end: solve = Solver().solve"

/-- _has_top_level_solve (orchestrator.py lines 340-355): the completion
gate. -/
def hasTopLevelSolve (wd : PyPath) (load : LoadOracle) (fs : FS) (p : PyPath) : Bool × String :=
  if (fs p.resolve.comps).isNone then (false, solverMissingDiag wd p)
  else
    match load p fs with
    | .raisesImportError m => (false, importErrorDiag m)
    | .raisesOther m => (false, otherErrorDiag m)
    | .loaded c => if c then (true, "") else (false, noEntrypointDiag)

/-- C6: the completion check maps the file state of the deliverable to
verdicts exactly as specified - missing file to a "Solver not found"
diagnostic, ImportError to a missing-dependency diagnostic naming the
exception, any other load fault to a generic failed-import diagnostic naming
the exception, a load without a callable module-level solve to the
"solve = Solver().solve" suggestion, and a load with one to the terminal
ready verdict. (Idempotence is immediate: the check is a pure function of
the filesystem and load outcome.) -/
theorem c6_completion_gate_mapping (wd : PyPath) (load : LoadOracle) (fs : FS)
    (p : PyPath) (m : String) :
    (fs p.resolve.comps = Option.none →
      hasTopLevelSolve wd load fs p = (false, solverMissingDiag wd p) ∧
      strStarts (hasTopLevelSolve wd load fs p).2 "Solver not found" = true) ∧
    ((fs p.resolve.comps).isSome = true → load p fs = .raisesImportError m →
      hasTopLevelSolve wd load fs p = (false, importErrorDiag m) ∧
      strStarts (hasTopLevelSolve wd load fs p).2
        "Failed to import solver due to missing dependency:" = true ∧
      strContains (hasTopLevelSolve wd load fs p).2 m = true) ∧
    ((fs p.resolve.comps).isSome = true → load p fs = .raisesOther m →
      hasTopLevelSolve wd load fs p = (false, otherErrorDiag m) ∧
      strStarts (hasTopLevelSolve wd load fs p).2 "Failed to import solver:" = true ∧
      strContains (hasTopLevelSolve wd load fs p).2 m = true) ∧
    ((fs p.resolve.comps).isSome = true → load p fs = .loaded false →
      hasTopLevelSolve wd load fs p = (false, noEntrypointDiag) ∧
      strContains (hasTopLevelSolve wd load fs p).2 "solve = Solver().solve" = true) ∧
    ((fs p.resolve.comps).isSome = true → load p fs = .loaded true →
      hasTopLevelSolve wd load fs p = (true, "")) := by
  refine ⟨?_, ?_, ?_, ?_, ?_⟩
  · intro hm
    have hg : hasTopLevelSolve wd load fs p = (false, solverMissingDiag wd p) := by
      unfold hasTopLevelSolve
      rw [if_pos (by rw [hm]; rfl)]
    refine ⟨hg, ?_⟩
    rw [hg]
    exact strStarts_append "Solver not found at " _ "Solver not found" (by decide)
  · intro hs hl
    have hg : hasTopLevelSolve wd load fs p = (false, importErrorDiag m) := by
      unfold hasTopLevelSolve
      rw [if_neg (by simp [Option.isNone_iff_eq_none]; exact Option.isSome_iff_ne_none.mp hs), hl]
    refine ⟨hg, ?_, ?_⟩
    · rw [hg]
      exact strStarts_append "Failed to import solver due to missing dependency: " _
        "Failed to import solver due to missing dependency:" (by decide)
    · rw [hg]
      exact strContains_embed "Failed to import solver due to missing dependency: " m _
  · intro hs hl
    have hg : hasTopLevelSolve wd load fs p = (false, otherErrorDiag m) := by
      unfold hasTopLevelSolve
      rw [if_neg (by simp [Option.isNone_iff_eq_none]; exact Option.isSome_iff_ne_none.mp hs), hl]
    refine ⟨hg, ?_, ?_⟩
    · rw [hg]
      exact strStarts_append "Failed to import solver: " _ "Failed to import solver:" (by decide)
    · rw [hg]
      exact strContains_embed "Failed to import solver: " m _
  · intro hs hl
    have hg : hasTopLevelSolve wd load fs p = (false, noEntrypointDiag) := by
      unfold hasTopLevelSolve
      rw [if_neg (by simp [Option.isNone_iff_eq_none]; exact Option.isSome_iff_ne_none.mp hs), hl]
      rfl
    refine ⟨hg, ?_⟩
    rw [hg]
    show strContains noEntrypointDiag "solve = Solver().solve" = true
    decide
  · intro hs hl
    unfold hasTopLevelSolve
    rw [if_neg (by simp [Option.isNone_iff_eq_none]; exact Option.isSome_iff_ne_none.mp hs), hl]
    rfl

/-- C6 witness: the gate evaluated at each of the five file states of a
concrete deliverable path. -/
theorem c6_witness :
    hasTopLevelSolve ⟨true, ["w"]⟩ (fun _ _ => .loaded true) (fun _ => Option.none)
        ⟨true, ["w", "solver.py"]⟩ =
      (false, solverMissingDiag ⟨true, ["w"]⟩ ⟨true, ["w", "solver.py"]⟩) ∧
    hasTopLevelSolve ⟨true, ["w"]⟩ (fun _ _ => .raisesImportError "No module named x")
        (fun _ => some "import x") ⟨true, ["w", "solver.py"]⟩ =
      (false, importErrorDiag "No module named x") ∧
    strContains (importErrorDiag "No module named x") "No module named x" = true ∧
    hasTopLevelSolve ⟨true, ["w"]⟩ (fun _ _ => .raisesOther "SyntaxError")
        (fun _ => some "def f(") ⟨true, ["w", "solver.py"]⟩ =
      (false, otherErrorDiag "SyntaxError") ∧
    hasTopLevelSolve ⟨true, ["w"]⟩ (fun _ _ => .loaded false)
        (fun _ => some "class Solver: ...") ⟨true, ["w", "solver.py"]⟩ =
      (false, noEntrypointDiag) ∧
    hasTopLevelSolve ⟨true, ["w"]⟩ (fun _ _ => .loaded true)
        (fun _ => some "def solve(p): return p") ⟨true, ["w", "solver.py"]⟩ =
      (true, "") := by
  refine ⟨?_, ?_, ?_, ?_, ?_, ?_⟩
  · exact ((c6_completion_gate_mapping ⟨true, ["w"]⟩ (fun _ _ => .loaded true)
      (fun _ => Option.none) ⟨true, ["w", "solver.py"]⟩ "").1 rfl).1
  · exact ((c6_completion_gate_mapping ⟨true, ["w"]⟩ (fun _ _ => .raisesImportError "No module named x")
      (fun _ => some "import x") ⟨true, ["w", "solver.py"]⟩ "No module named x").2.1 rfl rfl).1
  · exact ((c6_completion_gate_mapping ⟨true, ["w"]⟩ (fun _ _ => .raisesImportError "No module named x")
      (fun _ => some "import x") ⟨true, ["w", "solver.py"]⟩ "No module named x").2.1 rfl rfl).2.2
  · exact ((c6_completion_gate_mapping ⟨true, ["w"]⟩ (fun _ _ => .raisesOther "SyntaxError")
      (fun _ => some "def f(") ⟨true, ["w", "solver.py"]⟩ "SyntaxError").2.2.1 rfl rfl).1
  · exact ((c6_completion_gate_mapping ⟨true, ["w"]⟩ (fun _ _ => .loaded false)
      (fun _ => some "class Solver: ...") ⟨true, ["w", "solver.py"]⟩ "").2.2.2.1 rfl rfl).1
  · exact (c6_completion_gate_mapping ⟨true, ["w"]⟩ (fun _ _ => .loaded true)
      (fun _ => some "def solve(p): return p") ⟨true, ["w", "solver.py"]⟩ "").2.2.2.2 rfl rfl

/-- The coordinator run state: the transcript, the filesystem, and the
coder_tool.solver_path field that indicate_completion checks (line 338 reads
coder_tool.solver_path, which call_coder mutates at line 326). -/
structure CoordState where
  messages : List Message
  fs : FS
  coderPath : PyPath

/-- Oracle for the coordinator tool-dispatch branches other than
indicate_completion (write_file, run_shell, call_researcher, call_coder,
call_testgen, and the unknown-tool fallback at line 372): the string
tool-result, the filesystem afterwards, and coder_tool.solver_path
afterwards. -/
def CoordOracle : Type := ToolCall → CoordState → String × FS × PyPath

/-- The result of handling one coordinator step: continue the loop, or
return the deliverable path (the terminal success of line 369). -/
inductive CoordStepResult where
  | cont (st : CoordState)
  | done (st : CoordState) (target : PyPath)

/-- The transcript held by either outcome. -/
def CoordStepResult.msgs : CoordStepResult → List Message
  | .cont st => st.messages
  | .done st _ => st.messages

/-- Lines 276-394 of orchestrator.py: handle the tool calls of one assistant
turn in order. indicate_completion is intercepted: on a ready verdict the
run returns the target right after appending that call's tool-result,
skipping any remaining calls of the same turn; otherwise a
"Cannot complete" diagnostic is appended and handling continues. -/
def coordHandleCalls (wd : PyPath) (oracle : CoordOracle) (load : LoadOracle) :
    List ToolCall → CoordState → CoordStepResult
  | [], st => .cont st
  | tc :: rest, st =>
      if tc.name = "indicate_completion" then
        if (hasTopLevelSolve wd load st.fs st.coderPath).1 then
          .done { st with messages := st.messages ++
              [toolMsg tc.id ("Solver ready at " ++ (relPathStr wd st.coderPath ++ ". Completing run."))] }
            st.coderPath
        else
          coordHandleCalls wd oracle load rest
            { st with messages := st.messages ++
                [toolMsg tc.id ("Cannot complete: " ++
                  ((hasTopLevelSolve wd load st.fs st.coderPath).2 ++
                    "\n\nFix the issue before calling indicate_completion again."))] }
      else
        coordHandleCalls wd oracle load rest
          { messages := st.messages ++ [toolMsg tc.id (oracle tc st).1],
            fs := (oracle tc st).2.1,
            coderPath := (oracle tc st).2.2 }

/-- The budget-guidance developer message filter (orchestrator.py
lines 203-211). -/
def isGuidance (m : Message) : Bool :=
  m.role == .developer &&
    (match m.content with
     | some c => strStarts c "Tool calls remaining:"
     | Option.none => false)

/-- Remove every previously injected guidance message. -/
def pruneGuidance (msgs : List Message) : List Message :=
  msgs.filter (fun m => !isGuidance m)

/-- The freshly injected guidance message (lines 212-218). -/
def guidanceMsg (remaining : Nat) : Message :=
  { role := .developer,
    content := some ("Tool calls remaining: " ++
      (toString remaining ++ ". Emit a tool call now; avoid free-form text.")) }

/-- message.content or "No content produced." (line 234). -/
def coordText (c : Option String) : String :=
  match c with
  | some t => if t == "" then "No content produced." else t
  | Option.none => "No content produced."

/-- The free-text-shaped-like-a-tool-call detector (lines 236-239). -/
def looksLikeToolJson (stripped : String) : Bool :=
  strStarts stripped "\x7b" && strContains stripped "\x22tool\x22"

/-- The enumerated tool list of the corrective instruction (lines 241-248). -/
def coordToolDescriptions (er et : Bool) : List String :=
  (if er then ["- call_researcher(query, libraries) - get library/API documentation"] else []) ++
  ["- call_coder(approach, output_path) - generate/update the solver"] ++
  (if et then ["- call_testgen(solver_path, directions) - generate tests and run benchmarks"] else []) ++
  ["- run_shell(cmd, action) - run shell commands for quick checks",
   "- indicate_completion() - mark task as complete"]

/-- The corrective instruction injected on a tool-call-free response
(lines 250-264). -/
def coordErrorPrompt (er et : Bool) : String :=
  ("ERROR: You must emit real tool calls using the available tools.\n\nAvailable tools:\n" ++
    (String.intercalate "\n" (coordToolDescriptions er et) ++
      ("\n\nDo NOT:\n- Paste JSON that looks like a tool call\n- Write code directly in your response\n- Use apply_patch, tee, or cat > to edit files (use call_coder" ++
        ((if et then " or call_testgen" else "") ++
          " instead)\n\nYou must invoke the functions directly using the tool call mechanism."))))

/-- The corrective instruction, with the plain-JSON special case prefixed
(lines 263-264). -/
def coordErrorPromptFull (er et : Bool) (stripped : String) : String :=
  if looksLikeToolJson stripped then
    "ERROR: Plain JSON is not a valid tool call.\n\nYou wrote:\n" ++
      (strTake stripped 200 ++ ("\n\n" ++ coordErrorPrompt er et))
  else coordErrorPrompt er et

/-- One iteration of the coordinator loop body (lines 201-405): prune the
old guidance, inject the fresh one, request a response; a tool-call-free
response appends the offending text and the corrective user message and
continues; otherwise the calls are handled in order. -/
def coordStep (wd : PyPath) (er et : Bool) (maxSteps : Nat) (oracle : CoordOracle)
    (load : LoadOracle) (resp : Nat → AssistantMsg) (stepNum : Nat) (st : CoordState) :
    CoordStepResult :=
  if (resp stepNum).toolCalls.isEmpty then
    .cont { st with messages :=
        (pruneGuidance st.messages ++ [guidanceMsg (maxSteps - stepNum + 1)]) ++
        ([{ role := .assistant, content := some (coordText (resp stepNum).content) },
          { role := .user, content := some
              (coordErrorPromptFull er et (strStrip (coordText (resp stepNum).content))) }]) }
  else
    coordHandleCalls wd oracle load (resp stepNum).toolCalls
      { st with messages :=
          (pruneGuidance st.messages ++ [guidanceMsg (maxSteps - stepNum + 1)]) ++
          [{ role := .assistant, toolCalls := (resp stepNum).toolCalls }] }

/-- The coordinator loop (for step_num in range(1, max_steps + 1)), with its
final fallback return (line 410: the solver path when the file exists, None
otherwise). The response oracle is indexed by step_num; the coordinator makes
exactly one request per step. -/
def coordRunAux (wd : PyPath) (er et : Bool) (maxSteps : Nat) (oracle : CoordOracle)
    (load : LoadOracle) (resp : Nat → AssistantMsg) :
    Nat → Nat → CoordState → Option PyPath × CoordState
  | 0, _, st =>
      (if (st.fs st.coderPath.resolve.comps).isSome then some st.coderPath else Option.none, st)
  | fuel + 1, stepNum, st =>
      match coordStep wd er et maxSteps oracle load resp stepNum st with
      | .cont st2 => coordRunAux wd er et maxSteps oracle load resp fuel (stepNum + 1) st2
      | .done st2 target => (some target, st2)

/-- MultiAgent.run's coordinator loop from step 1 with the full budget. -/
def coordRun (wd : PyPath) (er et : Bool) (maxSteps : Nat) (oracle : CoordOracle)
    (load : LoadOracle) (resp : Nat → AssistantMsg) (st : CoordState) :
    Option PyPath × CoordState :=
  coordRunAux wd er et maxSteps oracle load resp maxSteps 1 st

/-! Claim C7: the budget-guidance invariant. -/

/-- Number of guidance messages in a transcript. -/
def guidCount (msgs : List Message) : Nat := (msgs.filter isGuidance).length

/-- guidCount distributes over append. -/
theorem guidCount_append (a b : List Message) :
    guidCount (a ++ b) = guidCount a + guidCount b := by
  simp [guidCount, List.filter_append]

/-- Pruning removes every guidance message. -/
theorem guidCount_prune (msgs : List Message) : guidCount (pruneGuidance msgs) = 0 := by
  induction msgs with
  | nil => rfl
  | cons m ms ih =>
      by_cases hg : isGuidance m = true
      · simp [pruneGuidance, guidCount, List.filter_cons, hg] at ih ⊢
      · simp only [Bool.not_eq_true] at hg
        simp [pruneGuidance, guidCount, List.filter_cons, hg] at ih ⊢

/-- The freshly injected message is a guidance message. -/
theorem isGuidance_guidanceMsg (r : Nat) : isGuidance (guidanceMsg r) = true := by
  show (Role.developer == Role.developer) &&
    strStarts ("Tool calls remaining: " ++
      (toString r ++ ". Emit a tool call now; avoid free-form text.")) "Tool calls remaining:" = true
  rw [strStarts_append "Tool calls remaining: " _ "Tool calls remaining:" (by decide)]
  rfl

/-- A message whose role is not developer is never a guidance message. -/
theorem isGuidance_of_role_ne (m : Message) (h : m.role ≠ .developer) :
    isGuidance m = false := by
  unfold isGuidance
  have hb : (m.role == Role.developer) = false := by
    cases hr : m.role <;> simp_all
  simp [hb]

/-- A transcript of non-developer messages holds no guidance message. -/
theorem guidCount_nondev (app : List Message) (h : ∀ m ∈ app, m.role ≠ .developer) :
    guidCount app = 0 := by
  induction app with
  | nil => rfl
  | cons m ms ih =>
      have hm := isGuidance_of_role_ne m (h m (by simp))
      simpa [guidCount, List.filter_cons, hm] using ih (fun x hx => h x (by simp [hx]))

/-- The transcript sent to the model at any coordinator step holds exactly
one guidance message, whatever the prior transcript was. -/
theorem guidCount_sent (msgs : List Message) (r : Nat) :
    guidCount (pruneGuidance msgs ++ [guidanceMsg r]) = 1 := by
  rw [guidCount_append, guidCount_prune]
  simp [guidCount, List.filter_cons, isGuidance_guidanceMsg]

/-- Handling the calls of a turn only appends tool-role messages. -/
theorem coordHandleCalls_msgs (wd : PyPath) (oracle : CoordOracle) (load : LoadOracle) :
    ∀ (tcs : List ToolCall) (st : CoordState), ∃ app,
      (coordHandleCalls wd oracle load tcs st).msgs = st.messages ++ app ∧
      ∀ m ∈ app, m.role = .tool := by
  intro tcs
  induction tcs with
  | nil =>
      intro st
      exact ⟨[], by simp [coordHandleCalls, CoordStepResult.msgs], by simp⟩
  | cons tc rest ih =>
      intro st
      unfold coordHandleCalls
      by_cases hn : tc.name = "indicate_completion"
      · rw [if_pos hn]
        by_cases hr : (hasTopLevelSolve wd load st.fs st.coderPath).1 = true
        · rw [if_pos hr]
          refine ⟨[toolMsg tc.id ("Solver ready at " ++
              (relPathStr wd st.coderPath ++ ". Completing run."))], by simp [CoordStepResult.msgs], ?_⟩
          intro m hm
          simp at hm
          subst hm
          rfl
        · rw [if_neg hr]
          obtain ⟨app, happ, hrole⟩ := ih { st with messages := st.messages ++
              [toolMsg tc.id ("Cannot complete: " ++
                ((hasTopLevelSolve wd load st.fs st.coderPath).2 ++
                  "\n\nFix the issue before calling indicate_completion again."))] }
          refine ⟨toolMsg tc.id ("Cannot complete: " ++
              ((hasTopLevelSolve wd load st.fs st.coderPath).2 ++
                "\n\nFix the issue before calling indicate_completion again.")) :: app, ?_, ?_⟩
          · rw [happ]
            simp
          · intro m hm
            rcases List.mem_cons.mp hm with hm | hm
            · subst hm; rfl
            · exact hrole m hm
      · rw [if_neg hn]
        obtain ⟨app, happ, hrole⟩ := ih
          { messages := st.messages ++ [toolMsg tc.id (oracle tc st).1],
            fs := (oracle tc st).2.1,
            coderPath := (oracle tc st).2.2 }
        refine ⟨toolMsg tc.id (oracle tc st).1 :: app, ?_, ?_⟩
        · rw [happ]
          simp
        · intro m hm
          rcases List.mem_cons.mp hm with hm | hm
          · subst hm; rfl
          · exact hrole m hm

/-- One coordinator step produces the sent transcript followed only by
non-developer messages. -/
theorem coordStep_decomp (wd : PyPath) (er et : Bool) (maxSteps : Nat)
    (oracle : CoordOracle) (load : LoadOracle) (resp : Nat → AssistantMsg)
    (stepNum : Nat) (st : CoordState) : ∃ app,
    (coordStep wd er et maxSteps oracle load resp stepNum st).msgs =
      (pruneGuidance st.messages ++ [guidanceMsg (maxSteps - stepNum + 1)]) ++ app ∧
    ∀ m ∈ app, m.role ≠ .developer := by
  unfold coordStep
  by_cases he : (resp stepNum).toolCalls.isEmpty = true
  · rw [if_pos he]
    refine ⟨[{ role := .assistant, content := some (coordText (resp stepNum).content) },
        { role := .user, content := some
            (coordErrorPromptFull er et (strStrip (coordText (resp stepNum).content))) }],
      by simp [CoordStepResult.msgs], ?_⟩
    intro m hm
    rcases List.mem_cons.mp hm with hm | hm
    · subst hm; simp
    · simp at hm
      subst hm
      simp
  · rw [if_neg he]
    obtain ⟨app, happ, hrole⟩ := coordHandleCalls_msgs wd oracle load (resp stepNum).toolCalls
      { st with messages :=
          (pruneGuidance st.messages ++ [guidanceMsg (maxSteps - stepNum + 1)]) ++
          [{ role := .assistant, toolCalls := (resp stepNum).toolCalls }] }
    refine ⟨({ role := .assistant, toolCalls := (resp stepNum).toolCalls } : Message) :: app, ?_, ?_⟩
    · rw [happ]
      simp
    · intro m hm
      rcases List.mem_cons.mp hm with hm | hm
      · subst hm; simp
      · rw [hrole m hm]
        simp

/-- After any coordinator step the transcript holds exactly one guidance
message. -/
theorem coordStep_guidCount (wd : PyPath) (er et : Bool) (maxSteps : Nat)
    (oracle : CoordOracle) (load : LoadOracle) (resp : Nat → AssistantMsg)
    (stepNum : Nat) (st : CoordState) :
    guidCount (coordStep wd er et maxSteps oracle load resp stepNum st).msgs = 1 := by
  obtain ⟨app, happ, hrole⟩ := coordStep_decomp wd er et maxSteps oracle load resp stepNum st
  rw [happ, guidCount_append, guidCount_sent, guidCount_nondev app hrole]

/-- Over any number of steps the invariant is preserved, terminally as
well. -/
theorem coordRunAux_guidCount (wd : PyPath) (er et : Bool) (maxSteps : Nat)
    (oracle : CoordOracle) (load : LoadOracle) (resp : Nat → AssistantMsg) :
    ∀ (fuel stepNum : Nat) (st : CoordState), guidCount st.messages ≤ 1 →
      guidCount (coordRunAux wd er et maxSteps oracle load resp fuel stepNum st).2.messages ≤ 1 := by
  intro fuel
  induction fuel with
  | zero => intro stepNum st h; exact h
  | succ fuel ih =>
      intro stepNum st h
      unfold coordRunAux
      rcases hs : coordStep wd er et maxSteps oracle load resp stepNum st with st2 | ⟨st2, target⟩
      · have h2 : guidCount st2.messages = 1 := by
          have := coordStep_guidCount wd er et maxSteps oracle load resp stepNum st
          rw [hs] at this
          exact this
        exact ih (stepNum + 1) st2 (by omega)
      · have h2 : guidCount st2.messages = 1 := by
          have := coordStep_guidCount wd er et maxSteps oracle load resp stepNum st
          rw [hs] at this
          exact this
        simpa using Nat.le_of_eq h2

/-- C7: before each model request every previously injected guidance message
is removed and exactly one fresh one (with remaining budget
max_steps - step_num + 1) is appended, so the transcript sent at any step
holds exactly one such message; handling a step appends only non-developer
messages after it, so at every point of the run the transcript holds at most
one guidance message, for any number of steps executed. -/
theorem c7_guidance_invariant (wd : PyPath) (er et : Bool) (maxSteps : Nat)
    (oracle : CoordOracle) (load : LoadOracle) (resp : Nat → AssistantMsg) :
    (∀ (msgs : List Message) (r : Nat),
        guidCount (pruneGuidance msgs ++ [guidanceMsg r]) = 1) ∧
    (∀ (stepNum : Nat) (st : CoordState), ∃ app,
        (coordStep wd er et maxSteps oracle load resp stepNum st).msgs =
          (pruneGuidance st.messages ++ [guidanceMsg (maxSteps - stepNum + 1)]) ++ app ∧
        ∀ m ∈ app, m.role ≠ .developer) ∧
    (∀ (stepNum : Nat) (st : CoordState),
        guidCount (coordStep wd er et maxSteps oracle load resp stepNum st).msgs = 1) ∧
    (∀ (fuel stepNum : Nat) (st : CoordState), guidCount st.messages ≤ 1 →
        guidCount (coordRunAux wd er et maxSteps oracle load resp fuel stepNum st).2.messages ≤ 1) :=
  ⟨fun msgs r => guidCount_sent msgs r,
   fun stepNum st => coordStep_decomp wd er et maxSteps oracle load resp stepNum st,
   fun stepNum st => coordStep_guidCount wd er et maxSteps oracle load resp stepNum st,
   fun fuel stepNum st h => coordRunAux_guidCount wd er et maxSteps oracle load resp fuel stepNum st h⟩

/-- C7 witness: a stale guidance message is replaced by exactly one fresh
one, and a two-step run from an empty transcript keeps the invariant. -/
theorem c7_witness :
    guidCount (pruneGuidance [guidanceMsg 7] ++ [guidanceMsg 2]) = 1 ∧
    guidCount (coordRunAux ⟨true, ["w"]⟩ false false 3
        (fun _ st => ("", st.fs, st.coderPath)) (fun _ _ => .loaded true)
        (fun _ => { content := some "x", toolCalls := [] }) 2 1
        { messages := [], fs := fun _ => Option.none,
          coderPath := ⟨true, ["w", "s.py"]⟩ }).2.messages ≤ 1 := by
  refine ⟨(c7_guidance_invariant ⟨true, ["w"]⟩ false false 3
      (fun _ st => ("", st.fs, st.coderPath)) (fun _ _ => .loaded true)
      (fun _ => { content := some "x", toolCalls := [] })).1 [guidanceMsg 7] 2, ?_⟩
  exact (c7_guidance_invariant ⟨true, ["w"]⟩ false false 3
      (fun _ st => ("", st.fs, st.coderPath)) (fun _ _ => .loaded true)
      (fun _ => { content := some "x", toolCalls := [] })).2.2.2 2 1
    { messages := [], fs := fun _ => Option.none, coderPath := ⟨true, ["w", "s.py"]⟩ }
    (by decide)

/-! Claim C1: indicate_completion on a missing deliverable. -/

/-- C1 (amended): dispatching an indicate_completion call while the file at
the coordinator's current solver path does not exist never yields the
terminal state from that call: the gate reports the file missing, a
diagnostic tool-result starting with "Cannot complete:" is appended, and
handling continues with the remaining calls of the turn. (The run can still
terminate within the same step, but only through a later
indicate_completion call of the same turn that observes a file created by
an intervening call - the counterexample to the claim as stated.) -/
theorem c1_indicate_completion_missing_dispatch (wd : PyPath) (oracle : CoordOracle)
    (load : LoadOracle) (st : CoordState) (tc : ToolCall) (rest : List ToolCall)
    (hname : tc.name = "indicate_completion")
    (hmiss : st.fs st.coderPath.resolve.comps = Option.none) :
    coordHandleCalls wd oracle load (tc :: rest) st =
      coordHandleCalls wd oracle load rest
        { st with messages := st.messages ++
            [toolMsg tc.id ("Cannot complete: " ++
              (solverMissingDiag wd st.coderPath ++
                "\n\nFix the issue before calling indicate_completion again."))] } ∧
    strStarts ("Cannot complete: " ++
        (solverMissingDiag wd st.coderPath ++
          "\n\nFix the issue before calling indicate_completion again.")) "Cannot complete:" = true := by
  have hg : hasTopLevelSolve wd load st.fs st.coderPath =
      (false, solverMissingDiag wd st.coderPath) := by
    unfold hasTopLevelSolve
    rw [if_pos (by rw [hmiss]; rfl)]
  constructor
  · conv_lhs => unfold coordHandleCalls
    rw [if_pos hname, hg, if_neg (by simp)]
  · exact strStarts_append "Cannot complete: " _ "Cannot complete:" (by decide)

/-- C1 witness: the amended dispatch equation and diagnostic at a concrete
missing-deliverable state. -/
theorem c1_witness :
    coordHandleCalls ⟨true, ["w"]⟩ (fun _ st => ("", st.fs, st.coderPath))
        (fun _ _ => .loaded true)
        [⟨"t1", "indicate_completion", some "\x7b\x7d"⟩]
        { messages := [], fs := fun _ => Option.none,
          coderPath := ⟨true, ["w", "solver.py"]⟩ } =
      coordHandleCalls ⟨true, ["w"]⟩ (fun _ st => ("", st.fs, st.coderPath))
        (fun _ _ => .loaded true) []
        { messages := [] ++
            [toolMsg "t1" ("Cannot complete: " ++
              (solverMissingDiag ⟨true, ["w"]⟩ ⟨true, ["w", "solver.py"]⟩ ++
                "\n\nFix the issue before calling indicate_completion again."))],
          fs := fun _ => Option.none, coderPath := ⟨true, ["w", "solver.py"]⟩ } := by
  exact (c1_indicate_completion_missing_dispatch ⟨true, ["w"]⟩
    (fun _ st => ("", st.fs, st.coderPath)) (fun _ _ => .loaded true)
    { messages := [], fs := fun _ => Option.none, coderPath := ⟨true, ["w", "solver.py"]⟩ }
    ⟨"t1", "indicate_completion", some "\x7b\x7d"⟩ [] rfl rfl).1

/-- The default message used when indexing a transcript. -/
def blankMsg : Message := { role := .user }

/-- C1 counterexample: the claim as stated says the run does not terminate
successfully at a step in which indicate_completion is dispatched against a
missing file. In a single turn [indicate_completion, call_coder,
indicate_completion], the first call is dispatched while the file is missing
(its "Cannot complete" diagnostic is appended as transcript entry 2), the
coder creates the deliverable, and the third call returns the path:
MultiAgent.run does terminate successfully at that very step. -/
theorem c1_counterexample :
    (coordRun ⟨true, ["w"]⟩ false false 1
        (fun tc st =>
          if tc.name == "call_coder" then
            ("Coder finished.",
              (fun k => if k = ["w", "solver.py"] then some "def solve(p): return p"
                else Option.none),
              ⟨true, ["w", "solver.py"]⟩)
          else ("", st.fs, st.coderPath))
        (fun _ _ => .loaded true)
        (fun _ => { content := Option.none, toolCalls :=
            [⟨"t1", "indicate_completion", some "\x7b\x7d"⟩,
             ⟨"t2", "call_coder", some "\x7b\x22approach\x22: \x22x\x22\x7d"⟩,
             ⟨"t3", "indicate_completion", some "\x7b\x7d"⟩] })
        { messages := [], fs := fun _ => Option.none,
          coderPath := ⟨true, ["w", "solver.py"]⟩ }).1 =
      some ⟨true, ["w", "solver.py"]⟩ ∧
    ((fun _ => Option.none : FS) (⟨true, ["w", "solver.py"]⟩ : PyPath).resolve.comps) =
      Option.none ∧
    strStarts (((coordRun ⟨true, ["w"]⟩ false false 1
        (fun tc st =>
          if tc.name == "call_coder" then
            ("Coder finished.",
              (fun k => if k = ["w", "solver.py"] then some "def solve(p): return p"
                else Option.none),
              ⟨true, ["w", "solver.py"]⟩)
          else ("", st.fs, st.coderPath))
        (fun _ _ => .loaded true)
        (fun _ => { content := Option.none, toolCalls :=
            [⟨"t1", "indicate_completion", some "\x7b\x7d"⟩,
             ⟨"t2", "call_coder", some "\x7b\x22approach\x22: \x22x\x22\x7d"⟩,
             ⟨"t3", "indicate_completion", some "\x7b\x7d"⟩] })
        { messages := [], fs := fun _ => Option.none,
          coderPath := ⟨true, ["w", "solver.py"]⟩ }).2.messages.getD 2 blankMsg).content.getD "")
      "Cannot complete:" = true := by
  refine ⟨rfl, rfl, ?_⟩
  rfl

/-! Claim C3: one tool-result per tool call, per turn. -/

/-- Dispatching a turn with no handler fault appends exactly one tool-role
message per call, each tagged with the id of its originating call, in the
order received. -/
theorem dispatchCalls_block {σ : Type} (handlers : String → Option (Handler σ)) :
    ∀ (tcs : List ToolCall) (msgs : List Message) (s : σ) (msgs2 : List Message) (s2 : σ),
      dispatchCalls handlers tcs msgs s = (.ok (), msgs2, s2) →
      ∃ results : List String, results.length = tcs.length ∧
        msgs2 = msgs ++ (tcs.zip results).map (fun p => toolMsg p.1.id p.2) := by
  intro tcs
  induction tcs with
  | nil =>
      intro msgs s msgs2 s2 h
      refine ⟨[], rfl, ?_⟩
      have h2 : msgs = msgs2 := congrArg (fun t => t.2.1) h
      simp [h2]
  | cons tc rest ih =>
      intro msgs s msgs2 s2 h
      unfold dispatchCalls at h
      cases hh : handlers tc.name with
      | none =>
          rw [hh] at h
          obtain ⟨results, hlen, hmsg⟩ := ih _ _ _ _ h
          refine ⟨("Unknown tool: " ++ tc.name) :: results, by simp [hlen], ?_⟩
          rw [hmsg]
          simp
      | some hr =>
          simp only [hh] at h
          rcases hres : hr tc s with ⟨r, s3⟩
          cases r with
          | ok rv =>
              simp only [hres] at h
              obtain ⟨results, hlen, hmsg⟩ := ih _ _ _ _ h
              refine ⟨rv :: results, by simp [hlen], ?_⟩
              rw [hmsg]
              simp
          | error e =>
              simp only [hres] at h
              simp at h

/-- Handling a coordinator turn appends exactly one tool-result per call when
the loop continues; when the turn terminates the run, the calls up to and
including the succeeding indicate_completion each received their result and
no further call of the turn did. -/
theorem coordHandleCalls_block (wd : PyPath) (oracle : CoordOracle) (load : LoadOracle) :
    ∀ (tcs : List ToolCall) (st : CoordState),
      (∀ st2, coordHandleCalls wd oracle load tcs st = .cont st2 →
        ∃ results : List String, results.length = tcs.length ∧
          st2.messages = st.messages ++ (tcs.zip results).map (fun p => toolMsg p.1.id p.2)) ∧
      (∀ st2 target, coordHandleCalls wd oracle load tcs st = .done st2 target →
        ∃ (j : Nat) (results : List String), j < tcs.length ∧
          (tcs.getD j ⟨"", "", Option.none⟩).name = "indicate_completion" ∧
          results.length = j + 1 ∧
          st2.messages = st.messages ++
            (((tcs.take (j + 1)).zip results).map (fun p => toolMsg p.1.id p.2))) := by
  intro tcs
  induction tcs with
  | nil =>
      intro st
      constructor
      · intro st2 h
        have h2 : st = st2 := by cases h; rfl
        exact ⟨[], rfl, by simp [h2]⟩
      · intro st2 target h
        cases h
  | cons tc rest ih =>
      intro st
      by_cases hn : tc.name = "indicate_completion"
      · by_cases hr : (hasTopLevelSolve wd load st.fs st.coderPath).1 = true
        · have heq : coordHandleCalls wd oracle load (tc :: rest) st =
              .done { st with messages := st.messages ++
                  [toolMsg tc.id ("Solver ready at " ++
                    (relPathStr wd st.coderPath ++ ". Completing run."))] } st.coderPath := by
            conv_lhs => unfold coordHandleCalls
            rw [if_pos hn, if_pos hr]
          constructor
          · intro st2 h
            rw [heq] at h
            cases h
          · intro st2 target h
            rw [heq] at h
            cases h
            refine ⟨0, [("Solver ready at " ++
              (relPathStr wd st.coderPath ++ ". Completing run."))], by simp, by simpa, rfl, ?_⟩
            simp
        · have heq : coordHandleCalls wd oracle load (tc :: rest) st =
              coordHandleCalls wd oracle load rest
                { st with messages := st.messages ++
                    [toolMsg tc.id ("Cannot complete: " ++
                      ((hasTopLevelSolve wd load st.fs st.coderPath).2 ++
                        "\n\nFix the issue before calling indicate_completion again."))] } := by
            conv_lhs => unfold coordHandleCalls
            rw [if_pos hn, if_neg hr]
          constructor
          · intro st2 h
            rw [heq] at h
            obtain ⟨results, hlen, hmsg⟩ := (ih _).1 st2 h
            refine ⟨("Cannot complete: " ++
              ((hasTopLevelSolve wd load st.fs st.coderPath).2 ++
                "\n\nFix the issue before calling indicate_completion again.")) :: results,
              by simp [hlen], ?_⟩
            rw [hmsg]
            simp
          · intro st2 target h
            rw [heq] at h
            obtain ⟨j, results, hj, hname, hlen, hmsg⟩ := (ih _).2 st2 target h
            refine ⟨j + 1, ("Cannot complete: " ++
              ((hasTopLevelSolve wd load st.fs st.coderPath).2 ++
                "\n\nFix the issue before calling indicate_completion again.")) :: results,
              by simpa using hj, by simpa using hname, by simp [hlen], ?_⟩
            rw [hmsg]
            simp
      · have heq : coordHandleCalls wd oracle load (tc :: rest) st =
            coordHandleCalls wd oracle load rest
              { messages := st.messages ++ [toolMsg tc.id (oracle tc st).1],
                fs := (oracle tc st).2.1,
                coderPath := (oracle tc st).2.2 } := by
          conv_lhs => unfold coordHandleCalls
          rw [if_neg hn]
        constructor
        · intro st2 h
          rw [heq] at h
          obtain ⟨results, hlen, hmsg⟩ := (ih _).1 st2 h
          refine ⟨(oracle tc st).1 :: results, by simp [hlen], ?_⟩
          rw [hmsg]
          simp
        · intro st2 target h
          rw [heq] at h
          obtain ⟨j, results, hj, hname, hlen, hmsg⟩ := (ih _).2 st2 target h
          refine ⟨j + 1, (oracle tc st).1 :: results,
            by simpa using hj, by simpa using hname, by simp [hlen], ?_⟩
          rw [hmsg]
          simp

/-- C3 (amended): in ToolChatAgent.run a turn with k tool calls appends
exactly k tool-role messages - each tagged with the tool_call_id of its
originating call, in order - strictly before the next model request,
provided no handler raises; in the coordinator the same holds for every turn
that continues the loop, while the turn terminated by a successful
indicate_completion appends one result per call only up to and including
that call (no further model request is made). -/
theorem c3_tool_results_per_turn {σ : Type} (handlers : String → Option (Handler σ))
    (tcs : List ToolCall) (msgs : List Message) (s : σ) (msgs2 : List Message) (s2 : σ)
    (wd : PyPath) (oracle : CoordOracle) (load : LoadOracle) (st : CoordState) :
    (dispatchCalls handlers tcs msgs s = (.ok (), msgs2, s2) →
      ∃ results : List String, results.length = tcs.length ∧
        msgs2 = msgs ++ (tcs.zip results).map (fun p => toolMsg p.1.id p.2)) ∧
    (∀ st2, coordHandleCalls wd oracle load tcs st = .cont st2 →
      ∃ results : List String, results.length = tcs.length ∧
        st2.messages = st.messages ++ (tcs.zip results).map (fun p => toolMsg p.1.id p.2)) ∧
    (∀ st2 target, coordHandleCalls wd oracle load tcs st = .done st2 target →
      ∃ (j : Nat) (results : List String), j < tcs.length ∧
        (tcs.getD j ⟨"", "", Option.none⟩).name = "indicate_completion" ∧
        results.length = j + 1 ∧
        st2.messages = st.messages ++
          (((tcs.take (j + 1)).zip results).map (fun p => toolMsg p.1.id p.2))) :=
  ⟨fun h => dispatchCalls_block handlers tcs msgs s msgs2 s2 h,
   (coordHandleCalls_block wd oracle load tcs st).1,
   (coordHandleCalls_block wd oracle load tcs st).2⟩

/-- C3 counterexample: a coordinator turn carrying two tool calls whose
first is a succeeding indicate_completion appends exactly one tool-role
message, not two - the second call of the turn never receives a result. -/
theorem c3_counterexample :
    (coordHandleCalls ⟨true, ["w"]⟩ (fun _ st => ("ok", st.fs, st.coderPath))
        (fun _ _ => .loaded true)
        [⟨"t1", "indicate_completion", some "\x7b\x7d"⟩,
         ⟨"t2", "run_shell", some "\x7b\x7d"⟩]
        { messages := [],
          fs := fun k => if k = ["w", "solver.py"] then some "def solve(p): return p"
            else Option.none,
          coderPath := ⟨true, ["w", "solver.py"]⟩ }).msgs.length = 1 ∧
    [(⟨"t1", "indicate_completion", some "\x7b\x7d"⟩ : ToolCall),
     ⟨"t2", "run_shell", some "\x7b\x7d"⟩].length = 2 :=
  ⟨rfl, rfl⟩

/-- C3 witness: a turn with one unregistered tool call appends exactly one
matching tool-result before the next request. -/
theorem c3_witness :
    ∃ results : List String, results.length = 1 ∧
      [toolMsg "a" "Unknown tool: foo"] =
        [] ++ ([(⟨"a", "foo", Option.none⟩ : ToolCall)].zip results).map
          (fun p => toolMsg p.1.id p.2) := by
  exact (c3_tool_results_per_turn (σ := Unit) (fun _ => Option.none)
    [⟨"a", "foo", Option.none⟩] [] () [toolMsg "a" "Unknown tool: foo"] ()
    ⟨true, ["w"]⟩ (fun _ st => ("", st.fs, st.coderPath)) (fun _ _ => .loaded true)
    { messages := [], fs := fun _ => Option.none, coderPath := ⟨true, ["w"]⟩ }).1 rfl

/-! Claim C8: the TestGenerator and the deliverable path. -/

/-- The resolved key a write_file call actually writes, when its execution
reaches the write (arguments parse to a dict with truthy string path, truthy
string content, truthy action, an in-workdir resolved target and no write
fault); none when the call writes nothing. -/
def writeFileEffectTarget (wd : PyPath) (wf : WriteFault) (tc : ToolCall) :
    Option (List String) :=
  match jsonLoadsOpt tc.arguments with
  | .error _ => Option.none
  | .ok args =>
      if !args.isDict then Option.none
      else if !(args.dGet "path").truthy then Option.none
      else if !(args.dGet "content").truthy then Option.none
      else if !(args.dGet "action").truthy then Option.none
      else
        match args.dGet "path" with
        | .vstr pstr =>
            match (writeFileTarget wd pstr).relativeTo wd with
            | .error _ => Option.none
            | .ok _ =>
                match args.dGet "content" with
                | .vstr _ =>
                    match wf (writeFileTarget wd pstr).comps with
                    | some _ => Option.none
                    | Option.none => some (writeFileTarget wd pstr).comps
                | _ => Option.none
        | _ => Option.none

/-- A change made by the guarded write block pins down its conditions and
the written key. -/
theorem writeFileAttempt_target (wd : PyPath) (wf : WriteFault) (fs : FS) (pstr : String)
    (carg : PyVal) (k : List String)
    (h : (writeFileAttempt wd wf fs pstr carg).2 k ≠ fs k) :
    (∃ rel, (writeFileTarget wd pstr).relativeTo wd = .ok rel) ∧
    (∃ cstr, carg = .vstr cstr) ∧
    wf (writeFileTarget wd pstr).comps = Option.none ∧
    k = (writeFileTarget wd pstr).comps := by
  unfold writeFileAttempt at h
  cases hrel : (writeFileTarget wd pstr).relativeTo wd with
  | error e => rw [hrel] at h; simp at h
  | ok rel =>
      rw [hrel] at h
      cases carg with
      | vstr cstr =>
          cases hwf : wf (writeFileTarget wd pstr).comps with
          | some m => rw [hwf] at h; simp at h
          | none =>
              rw [hwf] at h
              simp only at h
              exact ⟨⟨rel, rfl⟩, ⟨cstr, rfl⟩, rfl, fsWrite_frame h⟩
      | vnone => simp at h
      | vbool b => simp at h
      | vint n => simp at h
      | vlist xs => simp at h
      | vdict xs => simp at h

/-- A change made by WriteFileTool.execute happens exactly at the call's
effect target. -/
theorem writeFileExecute_target (wd : PyPath) (wf : WriteFault) (fs : FS) (tc : ToolCall)
    (k : List String)
    (h : (WriteFileTool.execute wd wf fs tc).2 k ≠ fs k) :
    writeFileEffectTarget wd wf tc = some k := by
  unfold WriteFileTool.execute at h
  cases hj : jsonLoadsOpt tc.arguments with
  | error e =>
      cases e <;> (rw [hj] at h; simp at h)
  | ok args =>
      simp only [hj] at h
      by_cases hd : (!args.isDict) = true
      · rw [if_pos hd] at h; simp at h
      · rw [if_neg hd] at h
        by_cases hp : (!(args.dGet "path").truthy) = true
        · rw [if_pos hp] at h; simp at h
        · rw [if_neg hp] at h
          by_cases hc : (!(args.dGet "content").truthy) = true
          · rw [if_pos hc] at h; simp at h
          · rw [if_neg hc] at h
            by_cases ha : (!(args.dGet "action").truthy) = true
            · rw [if_pos ha] at h; simp at h
            · rw [if_neg ha] at h
              cases hpath : args.dGet "path" with
              | vstr pstr =>
                  rw [hpath] at h
                  simp only at h
                  obtain ⟨⟨rel, hrel⟩, ⟨cstr, hcs⟩, hwf, hk⟩ :=
                    writeFileAttempt_target wd wf fs pstr (args.dGet "content") k h
                  have hd2 : (!args.isDict) = false := by simpa using hd
                  have hp2 : (!(args.dGet "path").truthy) = false := by simpa using hp
                  have hc2 : (!(args.dGet "content").truthy) = false := by simpa using hc
                  have ha2 : (!(args.dGet "action").truthy) = false := by simpa using ha
                  have htp : (PyVal.vstr pstr).truthy = true := by
                    have h2 := hp2
                    rw [hpath] at h2
                    simpa using h2
                  have htc : (PyVal.vstr cstr).truthy = true := by
                    have h2 := hc2
                    rw [hcs] at h2
                    simpa using h2
                  unfold writeFileEffectTarget
                  simp [hj, hd2, ha2, hpath, htp, hcs, htc, hrel, hwf, hk]
              | vnone => rw [hpath] at h; simp at h
              | vbool b => rw [hpath] at h; simp at h
              | vint n => rw [hpath] at h; simp at h
              | vlist xs => rw [hpath] at h; simp at h
              | vdict xs => rw [hpath] at h; simp at h

/-- RunShellTool.execute preserves any key the shell oracle preserves. -/
theorem runShellExecute_preserve (sh : ShellEffect) (fs : FS) (tc : ToolCall)
    (k : List String) (hsh : ∀ c f, ((sh c f).2) k = f k) :
    (RunShellTool.execute sh fs tc).2 k = fs k := by
  unfold RunShellTool.execute
  split
  · rfl
  · rfl
  · split
    · rfl
    · split
      · rfl
      · split
        · rfl
        · split
          · simp only
            unfold ShellInterface.runCommand
            split
            · rfl
            · exact hsh _ fs
          · rfl

/-- Dispatching a TestGenerator turn preserves the deliverable key when the
shell oracle preserves it and no write_file call of the turn resolves to
it. -/
theorem dispatchTestgen_preserve (wd : PyPath) (wf : WriteFault) (sh : ShellEffect)
    (solverKey : List String) (hsh : ∀ c f, ((sh c f).2) solverKey = f solverKey) :
    ∀ (tcs : List ToolCall) (msgs : List Message) (fs : FS),
      (∀ tc ∈ tcs, tc.name = "write_file" →
        writeFileEffectTarget wd wf tc ≠ some solverKey) →
      (dispatchCalls (testGenHandlers wd wf sh) tcs msgs fs).2.2 solverKey = fs solverKey := by
  intro tcs
  induction tcs with
  | nil => intro msgs fs hw; rfl
  | cons tc rest ih =>
      intro msgs fs hw
      unfold dispatchCalls
      by_cases h1 : tc.name = "write_file"
      · have hh : testGenHandlers wd wf sh tc.name =
            some (fun tc fs => WriteFileTool.execute wd wf fs tc) := by
          unfold testGenHandlers
          rw [if_pos h1]
        simp only [hh]
        rcases hres : WriteFileTool.execute wd wf fs tc with ⟨r, fs2⟩
        have hpres : fs2 solverKey = fs solverKey := by
          by_contra hne
          have hne2 : (WriteFileTool.execute wd wf fs tc).2 solverKey ≠ fs solverKey := by
            rw [hres]
            exact hne
          exact hw tc (by simp) h1 (writeFileExecute_target wd wf fs tc solverKey hne2)
        cases r with
        | ok rv =>
            have h2 := ih (msgs ++ [toolMsg tc.id rv]) fs2
              (fun x hx hn => hw x (by simp [hx]) hn)
            rw [h2]
            exact hpres
        | error e => exact hpres
      · by_cases h2 : tc.name = "run_shell"
        · have hh : testGenHandlers wd wf sh tc.name =
              some (fun tc fs => RunShellTool.execute sh fs tc) := by
            unfold testGenHandlers
            rw [if_neg h1, if_pos h2]
          simp only [hh]
          rcases hres : RunShellTool.execute sh fs tc with ⟨r, fs2⟩
          have hpres : fs2 solverKey = fs solverKey := by
            have h3 := runShellExecute_preserve sh fs tc solverKey hsh
            rw [hres] at h3
            exact h3
          cases r with
          | ok rv =>
              have h3 := ih (msgs ++ [toolMsg tc.id rv]) fs2
                (fun x hx hn => hw x (by simp [hx]) hn)
              rw [h3]
              exact hpres
          | error e => exact hpres
        · have hh : testGenHandlers wd wf sh tc.name = Option.none := by
            unfold testGenHandlers
            rw [if_neg h1, if_neg h2]
          simp only [hh]
          exact ih (msgs ++ [toolMsg tc.id ("Unknown tool: " ++ tc.name)]) fs
            (fun x hx hn => hw x (by simp [hx]) hn)

/-- C8 (amended): nothing in the TestGenerator's code restricts its writes
away from the deliverable: its tool set is the shared write_file/run_shell
pair confined only to the working directory (non-interference is requested
only by its prompt). The deliverable is left unmodified by a TestGenerator
loop exactly under the hypotheses the claim omits: the shell oracle
preserves the deliverable key and no write_file call issued by the model
resolves to it. -/
theorem c8_deliverable_frame (wd : PyPath) (wf : WriteFault) (sh : ShellEffect)
    (resp : Nat → AssistantMsg) (solverKey : List String)
    (hsh : ∀ c f, ((sh c f).2) solverKey = f solverKey)
    (hw : ∀ (i : Nat) (tc : ToolCall), tc ∈ (resp i).toolCalls → tc.name = "write_file" →
        writeFileEffectTarget wd wf tc ≠ some solverKey) :
    ∀ (fuel reqs : Nat) (msgs : List Message) (fs : FS),
      (ToolChatAgent.runAux (testGenHandlers wd wf sh) resp fuel reqs msgs fs).state solverKey
        = fs solverKey := by
  intro fuel
  induction fuel with
  | zero => intro reqs msgs fs; rfl
  | succ fuel ih =>
      intro reqs msgs fs
      by_cases hemp : (resp reqs).toolCalls.isEmpty = true
      · rw [runAux_step_plain (testGenHandlers wd wf sh) resp fuel reqs msgs fs hemp]
      · rcases hd : dispatchCalls (testGenHandlers wd wf sh) (resp reqs).toolCalls
            (msgs ++ [{ role := .assistant, toolCalls := (resp reqs).toolCalls }]) fs
          with ⟨r, msgs2, fs2⟩
        have hpres : fs2 solverKey = fs solverKey := by
          have h3 := dispatchTestgen_preserve wd wf sh solverKey hsh (resp reqs).toolCalls
            (msgs ++ [{ role := .assistant, toolCalls := (resp reqs).toolCalls }]) fs
            (fun tc htc hn => hw reqs tc htc hn)
          rw [hd] at h3
          exact h3
        cases r with
        | ok u =>
            cases u
            rw [runAux_step_ok (testGenHandlers wd wf sh) resp fuel reqs msgs fs msgs2 fs2 hemp hd]
            rw [ih (reqs + 1) msgs2 fs2]
            exact hpres
        | error e =>
            rw [runAux_step_error (testGenHandlers wd wf sh) resp fuel reqs msgs fs e msgs2 fs2 hemp hd]
            exact hpres

/-- C8 witness: a TestGenerator loop that writes harness.py leaves the file
at the deliverable key untouched. -/
theorem c8_witness :
    (ToolChatAgent.runAux
        (testGenHandlers ⟨true, ["w"]⟩ (fun _ => Option.none) (fun _ f => (("", 0), f)))
        (fun _ => { content := Option.none, toolCalls :=
            [⟨"c1", "write_file",
              some "\x7b\x22path\x22: \x22harness.py\x22, \x22content\x22: \x22import sys\x22, \x22action\x22: \x22w\x22\x7d"⟩] })
        1 0 []
        (fun k => if k = ["w", "solver.py"] then some "original" else Option.none)).state
      ["w", "solver.py"] =
    (fun k => if k = ["w", "solver.py"] then some "original" else Option.none : FS)
      ["w", "solver.py"] := by
  exact c8_deliverable_frame ⟨true, ["w"]⟩ (fun _ => Option.none) (fun _ f => (("", 0), f))
    (fun _ => { content := Option.none, toolCalls :=
        [⟨"c1", "write_file",
          some "\x7b\x22path\x22: \x22harness.py\x22, \x22content\x22: \x22import sys\x22, \x22action\x22: \x22w\x22\x7d"⟩] })
    ["w", "solver.py"]
    (fun c f => rfl)
    (by
      intro i tc htc hn
      simp at htc
      subst htc
      decide)
    1 0 []
    (fun k => if k = ["w", "solver.py"] then some "original" else Option.none)

/-- Comma-join already-rendered items. -/
def pyReprSeq (items : List String) : String :=
  String.intercalate ", " items

/-- Python repr of a parsed argument value, as interpolated into the
call_testgen diagnostic. -/
def pyRepr : PyVal → String
  | .vnone => "None"
  | .vbool b => if b then "True" else "False"
  | .vint n => toString n
  | .vstr s => "\x27" ++ (s ++ "\x27")
  | .vlist xs => "[" ++ (pyReprSeq (xs.attach.map (fun x => pyRepr x.1)) ++ "]")
  | .vdict xs => "\x7b" ++
      (pyReprSeq (xs.attach.map (fun x => "\x27" ++ (x.1.1 ++ ("\x27: " ++ pyRepr x.1.2)))) ++ "\x7d")
decreasing_by
  · have h := List.sizeOf_lt_of_mem x.2
    simp [PyVal.vlist.sizeOf_spec]
    omega
  · have h := List.sizeOf_lt_of_mem x.2
    have h2 : sizeOf x.1.2 < sizeOf x.1 := by
      rcases x with ⟨⟨a, b⟩, hx⟩
      simp
    simp [PyVal.vdict.sizeOf_spec]
    omega

/-- tool_call.function.arguments or a default (Python or-fallback: None and
the empty string both fall back). -/
def argTextOr (a : Option String) (d : String) : String :=
  match a with
  | Option.none => d
  | some s => if s == "" then d else s

/-- What TestGenerator.execute leaves behind: its summary text, the retained
history (the same transcript list the nested loop mutated), the filesystem,
and the updated solver_path field. -/
structure TestGenResult where
  text : String
  history : List Message
  fs : FS
  solverPath : PyPath

/-- (parsed.get("directions") or "").strip(): strips the value when truthy
(raising AttributeError on a truthy non-string), the empty string
otherwise. -/
def testgenDirections (parsed : PyVal) : Except PyExc String :=
  match parsed.get "directions" .vnone with
  | .error e => .error e
  | .ok dv => if dv.truthy then dv.stripStr else .ok ""

/-- The solver target of call_testgen (test_generator.py lines 89-91): an
absolute argument is kept as-is, a relative one is joined to the workdir and
resolved. -/
def testgenTarget (wd : PyPath) (s : String) : PyPath :=
  if (parsePath s).absolute then parsePath s else (wd.join (parsePath s)).resolve

/-- The call_testgen diagnostic for a missing or non-string solver_path. -/
def testgenMissingPathDiag (parsed : PyVal) : String :=
  "Error: solver_path is required for call_testgen.\n\nReceived: " ++
    (pyRepr parsed ++ "\n\nPlease provide solver_path as a non-empty string.")

/-- TestGenerator.execute (test_generator.py lines 76-105): parse the
arguments (a JSONDecodeError is converted, an AttributeError from a
non-object value propagates), validate solver_path, update the solver_path
field, and run the nested ToolChatAgent over the retained history. The
prompt template is out-of-scope text (spec section 1), abstracted as an
oracle of the rendered solver path and the directions. -/
def TestGenerator.execute (wd : PyPath) (wf : WriteFault) (sh : ShellEffect)
    (resp : Nat → AssistantMsg) (maxSteps : Nat)
    (mkPrompt : String → String → String)
    (history : List Message) (solverPath : PyPath) (fs : FS) (tc : ToolCall) :
    Except PyExc TestGenResult :=
  match jsonLoads (argTextOr tc.arguments "\x7b\x7d") with
  | .error (.jsonDecodeError m) =>
      .ok { text := "Error: Invalid JSON in call_testgen arguments. " ++
              (m ++ "\n\nMake sure solver_path is provided as a string."),
            history := history, fs := fs, solverPath := solverPath }
  | .error e => .error e
  | .ok parsed =>
      match parsed.get "solver_path" .vnone with
      | .error e => .error e
      | .ok spv =>
          match testgenDirections parsed with
          | .error e => .error e
          | .ok directions =>
              match spv with
              | .vstr spstr =>
                  if strStrip spstr == "" then
                    .ok { text := testgenMissingPathDiag parsed,
                          history := history, fs := fs, solverPath := solverPath }
                  else
                    let o := ToolChatAgent.run (testGenHandlers wd wf sh) resp maxSteps
                      (mkPrompt (relPathStr wd (testgenTarget wd spstr))
                        (if directions == "" then "Focus on realistic, scaling benchmarks."
                         else directions))
                      history fs
                    match o.result with
                    | .error e => .error e
                    | .ok t =>
                        .ok { text := if strStrip t == "" then "No summary produced."
                                else strStrip t,
                              history := o.messages, fs := o.state,
                              solverPath := testgenTarget wd spstr }
              | _ =>
                  .ok { text := testgenMissingPathDiag parsed,
                        history := history, fs := fs, solverPath := solverPath }

/-- C8 counterexample: the claim says that for every sequence of model
responses within a TestGenerator.execute invocation the deliverable is left
unmodified. Nothing enforces this: a model response issuing write_file at
the deliverable path overwrites it (the prompt forbids it, the code does
not). -/
theorem c8_counterexample :
    (match TestGenerator.execute ⟨true, ["w"]⟩ (fun _ => Option.none)
        (fun _ f => (("", 0), f))
        (fun i => if i == 0 then
            { content := Option.none, toolCalls :=
              [⟨"c1", "write_file",
                some "\x7b\x22path\x22: \x22solver.py\x22, \x22content\x22: \x22BROKEN\x22, \x22action\x22: \x22w\x22\x7d"⟩] }
          else { content := some "done", toolCalls := [] })
        5 (fun _ _ => "P") [] ⟨true, ["w", "solver.py"]⟩
        (fun k => if k = ["w", "solver.py"] then some "original" else Option.none)
        ⟨"t1", "call_testgen", some "\x7b\x22solver_path\x22: \x22solver.py\x22\x7d"⟩ with
      | .ok r => r.fs ["w", "solver.py"]
      | .error _ => Option.none) = some "BROKEN" ∧
    ((fun k => if k = ["w", "solver.py"] then some "original" else Option.none : FS)
      ["w", "solver.py"]) = some "original" :=
  ⟨rfl, rfl⟩

/-! Claim C5: malformed argument text at the tools. -/

/-- What CoderTool.execute leaves behind: its result text, the filesystem
after the nested loop, and the updated solver_path field. -/
structure CoderResult where
  text : String
  fs : FS
  solverPath : PyPath

/-- Path(output_path_raw) on a truthy value: a string parses, anything else
raises TypeError as pathlib does. -/
def coderPathOf : PyVal → Except PyExc PyPath
  | .vstr s => .ok (parsePath s)
  | _ => .error (.typeError "argument should be a str or an os.PathLike object where __fspath__ returns a str")

/-- CoderTool.execute (coder.py lines 94-131): a JSONDecodeError is
converted to an "Invalid JSON" diagnostic, but args.get on a non-object
value raises AttributeError (nothing catches it), as does .strip() on a
non-string approach; a truthy non-string output_path raises TypeError at
Path(). The nested agent run is the embedded ToolChatAgent over a fresh
transcript; the prompt template is out-of-scope text, abstracted as an
oracle of the rendered target path and the approach. -/
def CoderTool.execute (wd : PyPath) (handlers : String → Option (Handler FS))
    (resp : Nat → AssistantMsg) (maxSteps : Nat) (mkPrompt : String → String → String)
    (solverPath : PyPath) (fs : FS) (tc : ToolCall) : Except PyExc CoderResult :=
  match jsonLoads (argTextOr tc.arguments "\x7b\x7d") with
  | .error (.jsonDecodeError m) =>
      .ok { text := "Error: Invalid JSON in call_coder arguments. " ++
              (m ++ "\n\nMake sure \x27approach\x27 is provided as a properly escaped string."),
            fs := fs, solverPath := solverPath }
  | .error e => .error e
  | .ok args =>
      match args.get "approach" (.vstr "") with
      | .error e => .error e
      | .ok av =>
          match av.stripStr with
          | .error e => .error e
          | .ok approach =>
              if approach == "" then
                .ok { text := "Error: \x27approach\x27 parameter is required for call_coder.\n\nPlease provide a clear implementation strategy describing:\n- Which algorithm/library to use\n- Key implementation details\n- Expected input/output format",
                      fs := fs, solverPath := solverPath }
              else
                match args.get "output_path" .vnone with
                | .error e => .error e
                | .ok opv =>
                    match (if opv.truthy then coderPathOf opv else .ok solverPath) with
                    | .error e => .error e
                    | .ok target0 =>
                        let target := if target0.absolute then target0
                          else ((solverPath.parent.join target0)).resolve
                        let o := ToolChatAgent.run handlers resp maxSteps
                          (mkPrompt (relPathStr wd target) approach) [] fs
                        match o.result with
                        | .error e => .error e
                        | .ok summary =>
                            let ex := (o.state target.resolve.comps).isSome
                            let base := "Coder finished. solver_path=" ++
                              (relPathStr wd target ++ (" exists=" ++
                                ((if ex then "True" else "False") ++ (". Notes: " ++ summary))))
                            .ok { text := if ex then base
                                    else base ++ "\n\nWARNING: The solver file was not created. The coder may have encountered an error or didn\x27t use write_file.",
                                  fs := o.state, solverPath := target }

/-- C5: the claim says every raw argument text that does not parse as a JSON
object - including valid JSON that is not an object - yields a descriptive
string diagnostic and never raises past the dispatch boundary. The code
keeps that promise for unparseable text ("not-json" yields an
"Invalid JSON" diagnostic) but breaks it for valid non-object JSON: on
argument text "[1, 2]" CoderTool.execute evaluates args.get on a list and
raises AttributeError, which nothing in the dispatch path catches
(run_shell and write_file guard this very case with their
"arguments must be a JSON object" diagnostics, so the spec states the
evident intent and coder.py line 100 is the slip). -/
theorem c5_coder_invalid_json_behavior :
    CoderTool.execute ⟨true, ["w"]⟩ (fun _ => Option.none)
        (fun _ => { content := some "s", toolCalls := [] }) 3 (fun _ _ => "P")
        ⟨true, ["w", "solver.py"]⟩ (fun _ => Option.none)
        ⟨"t1", "call_coder", some "[1, 2]"⟩ =
      .error (.attributeError "\x27list\x27 object has no attribute \x27get\x27") ∧
    (match CoderTool.execute ⟨true, ["w"]⟩ (fun _ => Option.none)
        (fun _ => { content := some "s", toolCalls := [] }) 3 (fun _ _ => "P")
        ⟨true, ["w", "solver.py"]⟩ (fun _ => Option.none)
        ⟨"t1", "call_coder", some "not-json"⟩ with
      | .ok r => strContains r.text "Invalid JSON"
      | .error _ => false) = true ∧
    RunShellTool.execute (fun _ f => (("", 0), f)) (fun _ => Option.none)
        ⟨"t2", "run_shell", some "[1, 2]"⟩ =
      (.ok "Error: run_shell arguments must be a JSON object", (fun _ => Option.none : FS)) :=
  ⟨rfl, rfl, rfl⟩

/-! Claim C9: ResearcherTool (src/agents/multi_agent/researcher.py). The MCP
provider and the model endpoint are oracles; the try/except blocks inside
_run_researcher already convert their faults to strings in the source, so
the oracles return the converted strings directly. -/

/-- _safe_json_load: json.loads(raw or "\x7b\x7d"), with any decode error
collapsed to an empty dict. -/
def safeJsonLoad (raw : String) : PyVal :=
  match jsonLoads (argTextOr (some raw) "\x7b\x7d") with
  | .ok v => v
  | .error _ => .vdict []

/-- ", ".join over the parsed libraries value, with Python's semantics:
a list joins its items (TypeError on a non-string item), a string joins its
characters, a dict joins its keys, any other truthy value raises
TypeError. -/
def joinPyStrs : List PyVal → Except PyExc (List String)
  | [] => .ok []
  | x :: xs =>
      match x with
      | .vstr s =>
          match joinPyStrs xs with
          | .ok rest => .ok (s :: rest)
          | .error e => .error e
      | _ => .error (.typeError "sequence item: expected str instance")

/-- libraries = args.get("libraries") or []; then
", ".join(libraries) if libraries else "(none provided)". -/
def librariesText (args : PyVal) : Except PyExc String :=
  match args.get "libraries" .vnone with
  | .error e => .error e
  | .ok w =>
      if w.truthy then
        match w with
        | .vlist xs =>
            match joinPyStrs xs with
            | .ok ss => .ok (String.intercalate ", " ss)
            | .error e => .error e
        | .vstr s => .ok (String.intercalate ", " (s.data.map (fun c => String.singleton c)))
        | .vdict xs => .ok (String.intercalate ", " (xs.map (fun p => p.1)))
        | _ => .error (.typeError "can only join an iterable")
      else .ok "(none provided)"

/-- The outcome of one _run_researcher: the returned text, one entry per
model request recording whether tools were enabled, and the transcript. -/
structure ResearcherRun where
  result : String
  requests : List Bool
  messages : List Message

/-- The inner MCP tool loop of _run_researcher (researcher.py lines
116-176): final text, transcript and request count. -/
def researcherLoopAux (resp : Nat → AssistantMsg) (mcp : ToolCall → String) :
    Nat → Nat → List Message → String × List Message × Nat
  | 0, reqs, msgs => ("", msgs, reqs)
  | fuel + 1, reqs, msgs =>
      if (resp reqs).toolCalls.isEmpty then
        ((resp reqs).content.getD "",
         msgs ++ [{ role := .assistant, content := some ((resp reqs).content.getD "") }],
         reqs + 1)
      else
        researcherLoopAux resp mcp fuel (reqs + 1)
          ((msgs ++ [{ role := .assistant, toolCalls := (resp reqs).toolCalls }]) ++
            (resp reqs).toolCalls.map (fun tc => toolMsg tc.id (mcp tc)))

/-- The summarize-now instruction of researcher.py lines 179-184. -/
def summarizeNowMsg : Message :=
  { role := .user, content := some "Summarize your findings now in plain text (no tool calls)." }

/-- _run_researcher (researcher.py lines 79-201): list the MCP tools, run
the inner loop, and when no non-empty plain text was produced make exactly
one more request with tool-use disabled after appending the summarize-now
instruction, substituting the literal fallback for an empty summary. -/
def runResearcher (resp : Nat → AssistantMsg) (listTools : Except String Unit)
    (mcp : ToolCall → String) (maxSteps : Nat) (prompt : String) : ResearcherRun :=
  match listTools with
  | .error m =>
      { result := "Error listing MCP tools: " ++ m, requests := [],
        messages := [{ role := .developer, content := some prompt }] }
  | .ok _ =>
      let r := researcherLoopAux resp mcp maxSteps 0
        [{ role := .developer, content := some prompt }]
      if r.1 == "" then
        { result := if ((resp r.2.2).content.getD "") == "" then "No researcher answer produced."
            else (resp r.2.2).content.getD "",
          requests := List.replicate r.2.2 true ++ [false],
          messages := r.2.1 ++ [summarizeNowMsg] }
      else
        { result := r.1, requests := List.replicate r.2.2 true, messages := r.2.1 }

/-- ResearcherTool.execute (researcher.py lines 48-77): validate the
arguments (args.get on a truthy non-object value raises AttributeError,
as does .strip() on a non-string query), then run the researcher. The
prompt template is out-of-scope text, abstracted as an oracle of the query
and the libraries text. -/
def ResearcherTool.execute (resp : Nat → AssistantMsg) (listTools : Except String Unit)
    (mcp : ToolCall → String) (maxSteps : Nat) (mkPrompt : String → String → String)
    (tc : ToolCall) : Except PyExc String :=
  if !(safeJsonLoad (tc.arguments.getD "")).truthy then
    .ok ("Error: Invalid JSON in call_researcher arguments.\n\nReceived: " ++
      (strTake (tc.arguments.getD "") 200 ++
        "\n\nPlease provide \x27query\x27 as a string and optionally \x27libraries\x27 as an array of strings."))
  else
    match (safeJsonLoad (tc.arguments.getD "")).get "query" (.vstr "") with
    | .error e => .error e
    | .ok qv =>
        match qv.stripStr with
        | .error e => .error e
        | .ok query =>
            if query == "" then
              .ok "Error: \x27query\x27 parameter is required for call_researcher.\n\nPlease provide a clear question about what library/API information you need."
            else
              match librariesText (safeJsonLoad (tc.arguments.getD "")) with
              | .error e => .error e
              | .ok ltext =>
                  .ok (runResearcher resp listTools mcp maxSteps (mkPrompt query ltext)).result

/-- A concatenation whose left part is non-empty is non-empty. -/
theorem append_ne_empty (a b : String) (h : a ≠ "") : a ++ b ≠ "" := by
  intro he
  apply h
  apply String.ext
  have hd : (a ++ b).data = ("" : String).data := congrArg String.data he
  rw [String.data_append] at hd
  exact (List.append_eq_nil.mp hd).1

/-- The researcher run always produces non-empty text. -/
theorem runResearcher_ne_empty (resp : Nat → AssistantMsg) (listTools : Except String Unit)
    (mcp : ToolCall → String) (maxSteps : Nat) (prompt : String) :
    (runResearcher resp listTools mcp maxSteps prompt).result ≠ "" := by
  unfold runResearcher
  cases listTools with
  | error m => exact append_ne_empty "Error listing MCP tools: " m (by decide)
  | ok u =>
      simp only
      by_cases h1 : (researcherLoopAux resp mcp maxSteps 0
          [{ role := .developer, content := some prompt }]).1 == ""
      · rw [if_pos h1]
        by_cases h2 : (((resp (researcherLoopAux resp mcp maxSteps 0
            [{ role := .developer, content := some prompt }]).2.2).content.getD "") == "")
        · rw [if_pos h2]
          exact (by decide : ("No researcher answer produced." : String) ≠ "")
        · rw [if_neg h2]
          simpa using h2
      · rw [if_neg h1]
        simpa using h1

/-- When every response carries tool calls the inner loop exhausts its
budget with empty final text, having made exactly its budget of requests. -/
theorem researcherLoop_exhaust (resp : Nat → AssistantMsg) (mcp : ToolCall → String) :
    ∀ (fuel reqs : Nat) (msgs : List Message),
      (∀ i, reqs ≤ i → i < reqs + fuel → (resp i).toolCalls ≠ []) →
      (researcherLoopAux resp mcp fuel reqs msgs).1 = "" ∧
      (researcherLoopAux resp mcp fuel reqs msgs).2.2 = reqs + fuel := by
  intro fuel
  induction fuel with
  | zero => intro reqs msgs h; exact ⟨rfl, rfl⟩
  | succ fuel ih =>
      intro reqs msgs h
      unfold researcherLoopAux
      have hne : ¬ (resp reqs).toolCalls.isEmpty = true := by
        have h2 := h reqs (Nat.le_refl _) (by omega)
        simpa [List.isEmpty_iff] using h2
      rw [if_neg hne]
      have h3 := ih (reqs + 1)
        ((msgs ++ [{ role := .assistant, toolCalls := (resp reqs).toolCalls }]) ++
          (resp reqs).toolCalls.map (fun tc => toolMsg tc.id (mcp tc)))
        (fun i hi1 hi2 => h i (by omega) (by omega))
      refine ⟨h3.1, ?_⟩
      rw [h3.2]
      omega

/-- C9 (amended): whenever ResearcherTool.execute returns rather than
raising - a truthy non-object argument value, or an ill-typed query or
libraries field, raises AttributeError/TypeError (the counterexample) -
the returned string is non-empty; and when the nested MCP loop exhausts
its budget without producing a plain-text message, exactly one additional
model request is made with tool-use disabled, after the summarize-now
instruction is appended, and an empty summary is replaced by the literal
fallback "No researcher answer produced.". -/
theorem c9_researcher_nonempty (resp : Nat → AssistantMsg) (listTools : Except String Unit)
    (mcp : ToolCall → String) (maxSteps : Nat) (mkPrompt : String → String → String)
    (tc : ToolCall) (prompt : String) :
    (∀ r, ResearcherTool.execute resp listTools mcp maxSteps mkPrompt tc = .ok r → r ≠ "") ∧
    ((∀ i, i < maxSteps → (resp i).toolCalls ≠ []) →
      (runResearcher resp (.ok ()) mcp maxSteps prompt).requests =
        List.replicate maxSteps true ++ [false] ∧
      (runResearcher resp (.ok ()) mcp maxSteps prompt).messages.getLast? =
        some summarizeNowMsg ∧
      ((resp maxSteps).content.getD "" = "" →
        (runResearcher resp (.ok ()) mcp maxSteps prompt).result =
          "No researcher answer produced.") ∧
      ((resp maxSteps).content.getD "" ≠ "" →
        (runResearcher resp (.ok ()) mcp maxSteps prompt).result =
          (resp maxSteps).content.getD "")) := by
  constructor
  · intro r h
    unfold ResearcherTool.execute at h
    by_cases h0 : (!(safeJsonLoad (tc.arguments.getD "")).truthy) = true
    · rw [if_pos h0] at h
      have hr := Except.ok.inj h
      rw [← hr]
      exact append_ne_empty _ _ (by decide)
    · rw [if_neg h0] at h
      cases hq : (safeJsonLoad (tc.arguments.getD "")).get "query" (.vstr "") with
      | error e =>
          simp only [hq] at h
          exact Except.noConfusion h
      | ok qv =>
          simp only [hq] at h
          cases hs : qv.stripStr with
          | error e =>
              simp only [hs] at h
              exact Except.noConfusion h
          | ok query =>
              simp only [hs] at h
              by_cases hq2 : (query == "") = true
              · rw [if_pos hq2] at h
                have hr := Except.ok.inj h
                rw [← hr]
                decide
              · rw [if_neg hq2] at h
                cases hl : librariesText (safeJsonLoad (tc.arguments.getD "")) with
                | error e =>
                    simp only [hl] at h
                    exact Except.noConfusion h
                | ok ltext =>
                    simp only [hl] at h
                    have hr := Except.ok.inj h
                    rw [← hr]
                    exact runResearcher_ne_empty resp listTools mcp maxSteps
                      (mkPrompt query ltext)
  · intro hall
    have hex := researcherLoop_exhaust resp mcp maxSteps 0
      [{ role := .developer, content := some prompt }]
      (fun i hi1 hi2 => hall i (by omega))
    unfold runResearcher
    simp only
    rw [if_pos (by rw [hex.1]; rfl)]
    have hcount : (researcherLoopAux resp mcp maxSteps 0
        [{ role := .developer, content := some prompt }]).2.2 = maxSteps := by
      rw [hex.2]
      omega
    refine ⟨by rw [hcount], by simp, ?_, ?_⟩
    · intro hc
      simp only [hcount, hc]
      rfl
    · intro hc
      simp only [hcount]
      rw [if_neg (by simpa using hc)]

/-- C9 counterexample: the claim says ResearcherTool.execute always returns
a non-empty string to its caller. On argument text "[1]" - valid JSON, a
truthy non-object - args.get raises AttributeError before the guarded
region (researcher.py line 56 sits above the try of line 67), so execute
raises instead of returning. -/
theorem c9_counterexample :
    ResearcherTool.execute (fun _ => { content := some "x", toolCalls := [] }) (.ok ())
        (fun _ => "") 3 (fun _ _ => "P") ⟨"t1", "call_researcher", some "[1]"⟩ =
      .error (.attributeError "\x27list\x27 object has no attribute \x27get\x27") := rfl

/-- C9 witness: a well-formed query returns its non-empty answer, and a
budget-exhausting run falls back to the literal answer after the
tools-disabled summarize request. -/
theorem c9_witness :
    ("x" : String) ≠ "" ∧
    (runResearcher
        (fun i => if i == 0 then
            { content := Option.none, toolCalls := [⟨"m1", "search", some "\x7b\x7d"⟩] }
          else { content := Option.none, toolCalls := [] })
        (.ok ()) (fun _ => "doc") 1 "P").result = "No researcher answer produced." := by
  constructor
  · exact (c9_researcher_nonempty (fun _ => { content := some "x", toolCalls := [] }) (.ok ())
      (fun _ => "doc") 3 (fun _ _ => "P")
      ⟨"t1", "call_researcher", some "\x7b\x22query\x22: \x22q\x22\x7d"⟩ "P").1 "x" rfl
  · exact ((c9_researcher_nonempty
      (fun i => if i == 0 then
          { content := Option.none, toolCalls := [⟨"m1", "search", some "\x7b\x7d"⟩] }
        else { content := Option.none, toolCalls := [] })
      (.ok ()) (fun _ => "doc") 1 (fun _ _ => "P")
      ⟨"t1", "call_researcher", some "\x7b\x22query\x22: \x22q\x22\x7d"⟩ "P").2
      (by
        intro i hi
        have hi0 : i = 0 := by omega
        subst hi0
        simp)).2.2.1 rfl
